import Mathlib

/-!
# Verification of the spin-langevin propagation engine

Shallow embedding of `src/lib.rs` (crate `spin-langevin`): the two-stage
nonlinear Magnus stepper, its stability gate, the single-stage and
single-field-evaluation variants, the per-row stepper, the parallel replica
scheduler, and the SIMD lane-layout adaptor.

Modelling conventions:
* `f64` scalars are idealized as `ℚ`.  All claim-relevant behaviour is
  structural (which fields are evaluated where, which generator formulas are
  assembled, which comparison gates the step), not floating-point rounding.
  The floating square root, which has no rational counterpart, is passed as
  an explicit function parameter `sq : ℚ → ℚ`, exactly where the source calls
  `f64::sqrt`.  The constant `MAX_AVG_ANGULAR_FIELD = std::f64::consts::PI`
  is embedded as the exact rational value of the `f64` nearest to π.
* The external rotation applier (`cross_exponential_vector3d` composed with a
  matrix-vector product, resp. `nalgebra::Rotation3::new`) is an out-of-scope
  collaborator per the spec; it is passed as a parameter
  `rot : V3 → V3 → V3` with `rot ω v` standing for `exp(ω ×) v`.
* The RNG plus the noise-increment callback `rand_xi_f` are modelled by
  passing the sequence of raw draws (one 3-vector per cell, in iteration
  order) as an input grid `xi`; the code's scaling by `√b` is kept inside
  the embedded steppers, exactly where the source applies it.
* SIMD lanes: every stepper operates lane-wise, so a bulk array of
  `Vector3d4xf64` chunks is embedded as a grid of individual 3-vectors (one
  per lane).  The chunk-mean inside `avg_field` coincides with the overall
  cell mean because every chunk holds exactly 4 lanes.  The lane packing is
  embedded faithfully (3 components × 4 lanes per chunk) for the layout
  adaptor `xyz_to_array_chunks`, the one function whose behaviour depends
  on it.
* Rust panics (`assert!`/`panic!`) are embedded as `Except.error` carrying
  the panic message; `usize` arithmetic that can wrap is taken modulo 2^64.
-/

/-- A 3D real vector (`nalgebra::Vector3<f64>`, or one SIMD lane of a
`Vector3d4xf64`), with `f64` idealized as `ℚ`. -/
structure V3 where
  x : ℚ
  y : ℚ
  z : ℚ
deriving DecidableEq

/-- Componentwise vector addition. -/
def V3.add (a b : V3) : V3 := ⟨a.x + b.x, a.y + b.y, a.z + b.z⟩

/-- Componentwise vector subtraction. -/
def V3.sub (a b : V3) : V3 := ⟨a.x - b.x, a.y - b.y, a.z - b.z⟩

/-- Multiplication of a vector by a scalar (`v * c`). -/
def V3.smul (a : V3) (c : ℚ) : V3 := ⟨a.x * c, a.y * c, a.z * c⟩

/-- The cross product `a × b`. -/
def V3.cross (a b : V3) : V3 :=
  ⟨a.y * b.z - a.z * b.y, a.z * b.x - a.x * b.z, a.x * b.y - a.y * b.x⟩

/-- The dot product `a ⬝ b`. -/
def V3.dot (a b : V3) : ℚ := a.x * b.x + a.y * b.y + a.z * b.z

/-- One replica row: a 1-D array of per-spin 3-vectors. -/
abbrev Row := List V3

/-- A 2-D (replica × spin) array of 3-vectors (`ndarray::Array2`). -/
abbrev Grid := List Row

/-- The shape `(rows, cols)` of a rectangular 2-D array
(`Array2::raw_dim`). -/
def raw_dim (g : Grid) : ℕ × ℕ := (g.length, (g.headD []).length)

/-- Three-list pointwise zip, truncating at the shortest list. -/
def zipWith3 (f : α → β → γ → δ) : List α → List β → List γ → List δ
  | a :: as, b :: bs, c :: cs => f a b c :: zipWith3 f as bs cs
  | _, _, _ => []

/-- Five-list pointwise zip, truncating at the shortest list. -/
def zipWith5 (f : α → β → γ → δ → ε → ζ) :
    List α → List β → List γ → List δ → List ε → List ζ
  | a :: as, b :: bs, c :: cs, d :: ds, e :: es =>
      f a b c d e :: zipWith5 f as bs cs ds es
  | _, _, _, _, _ => []

/-- Cellwise zip of three grids (`ndarray::Zip` over three 2-D arrays). -/
def gzip3 (f : V3 → V3 → V3 → V3) (a b c : Grid) : Grid :=
  zipWith3 (fun ra rb rc => zipWith3 f ra rb rc) a b c

/-- Cellwise zip of five grids (`ndarray::Zip` over five 2-D arrays). -/
def gzip5 (f : V3 → V3 → V3 → V3 → V3 → V3) (a b c d e : Grid) : Grid :=
  zipWith5 (fun ra rb rc rd re => zipWith5 f ra rb rc rd re) a b c d e

/-- Scale every cell of a row by the scalar `c`. -/
def scale_row (c : ℚ) (r : Row) : Row := r.map (fun v => v.smul c)

/-- Scale every cell of a grid by the scalar `c`. -/
def scale_grid (c : ℚ) (g : Grid) : Grid := g.map (scale_row c)

/-- `MAX_AVG_ANGULAR_FIELD = std::f64::consts::PI`: the exact rational value
of the `f64` closest to π. -/
def MAX_AVG_ANGULAR_FIELD : ℚ := 884279719003555 / 281474976710656

/-- The two-variant step outcome (`enum StepResult`). -/
inductive StepResult where
  | Accept : ℚ → StepResult
  | Reject : ℚ → StepResult
deriving DecidableEq

/-- Options of the two-stage stepper (`struct SpinLangevinOpts`). -/
structure SpinLangevinOpts where
  h_max : ℚ
  stage1_only : Bool
deriving DecidableEq

/-- `impl Default for SpinLangevinOpts`: `h_max = 0.2`, `stage1_only = false`. -/
def SpinLangevinOpts.default : SpinLangevinOpts := ⟨1/5, false⟩

/-- `sl_add_dissipative` / `sl_add_dissipative_f64`: update the local field
by the dissipative term, `h ← h - (h × m) * χ`, cellwise over the zip of the
spin row `m` with the field row `h`. -/
def sl_add_dissipative (h m : Row) (chi : ℚ) : Row :=
  List.zipWith (fun mv hv => hv.sub ((hv.cross mv).smul chi)) m h

/-- `h_update_row`: evaluate the Hamiltonian callback at `(t, m)` into the
field row, then apply the dissipative correction with the same spins. -/
def h_update_row (t eta : ℚ) (haml_fn : ℚ → Row → Row) (m : Row) : Row :=
  sl_add_dissipative (haml_fn t m) m eta

/-- `h_update_par` / `h_update_f64`: `h_update_row` applied to every
(replica) row of the grid. -/
def h_update_par (t eta : ℚ) (haml_fn : ℚ → Row → Row) (m : Grid) : Grid :=
  m.map (fun m_row => h_update_row t eta haml_fn m_row)

/-- `m_update_row`: apply the rotation generated by each `ω` cell to the
corresponding `t0` spin (`spins_tf ← exp(ω ×) spins_t0`). -/
def m_update_row (rot : V3 → V3 → V3) (omega spins_t0 : Row) : Row :=
  List.zipWith rot omega spins_t0

/-- `m_update_par` / `m_update_f64`: `m_update_row` on every row. -/
def m_update_par (rot : V3 → V3 → V3) (omega spins_t0 : Grid) : Grid :=
  List.zipWith (m_update_row rot) omega spins_t0

/-- `avg_field_row`: mean Euclidean norm of the cells of a row,
`Σ sqrt(v⬝v) / len`. -/
def avg_field_row (sq : ℚ → ℚ) (m : Row) : ℚ :=
  ((m.map (fun v => sq (v.dot v))).sum) / (m.length : ℚ)

/-- `avg_field` / `avg_field_f64`: mean Euclidean norm over all cells of a
grid. -/
def avg_field (sq : ℚ → ℚ) (m : Grid) : ℚ :=
  (((m.flatten).map (fun v => sq (v.dot v))).sum) / ((m.flatten).length : ℚ)

/-- Body of `spin_langevin_step_m0` after its assertion prologue: the
single-field-evaluation ("cheap") stepper.  One field evaluation at the
midpoint on the `t0` spins, deterministic generator `Ω1 = H1·Δt`, gate
against the caller-supplied `h_max`, then the operator-split stochastic
rotation.  Returns the `StepResult` and the final contents of the `mf`
buffer (unchanged on `Reject`). -/
def spin_langevin_step_m0_core (m0 mf : Grid) (t0 delta_t eta b : ℚ)
    (haml_fn : ℚ → Row → Row) (xi : Grid) (h_max : ℚ)
    (sq : ℚ → ℚ) (rot : V3 → V3 → V3) : StepResult × Grid :=
  let t1 := t0 + delta_t / 2
  let b_sqrt := sq b
  let haml_10 := h_update_par t1 eta haml_fn m0
  let omega_1 := haml_10.map (fun row => row.map (fun h0 => h0.smul delta_t))
  let mean_o1 := avg_field sq omega_1
  if mean_o1 ≥ h_max then (.Reject mean_o1, mf)
  else
    let m1 := m_update_par rot omega_1 m0
    let noise_1 := xi.map (fun row =>
      row.map (fun v => (v.smul b_sqrt).smul (sq delta_t)))
    let mfOut := m_update_par rot noise_1 m1
    (.Accept mean_o1, mfOut)

/-- `spin_langevin_step_m0`: assertion prologue (shape of the workpad's `h0`
against `m0`, shape of `mf` against `m0`, `b ≥ 0`) then the core.  The RNG
draw sequence is passed as the grid `xi`. -/
def spin_langevin_step_m0 (m0 mf : Grid) (t0 delta_t : ℚ)
    (workShape : ℕ × ℕ) (eta b : ℚ) (haml_fn : ℚ → Row → Row) (xi : Grid)
    (h_max : ℚ) (sq : ℚ → ℚ) (rot : V3 → V3 → V3) :
    Except String (StepResult × Grid) :=
  if raw_dim m0 ≠ workShape then
    .error "assertion failed: m0.raw_dim() == work.h0.raw_dim()"
  else if raw_dim mf ≠ raw_dim m0 then
    .error "assertion failed: mf.raw_dim() == m0.raw_dim()"
  else if ¬ (b ≥ 0) then
    .error "Stochastic strength must be non-negative"
  else
    .ok (spin_langevin_step_m0_core m0 mf t0 delta_t eta b haml_fn xi h_max
      sq rot)

/-- Body of `spin_langevin_step_m1` after its assertion prologue: the
stage-1-only stepper.  Three field evaluations on the unchanged `t0` spins,
the single generator `Ω12 = (Δt/6)(H0+4H1+H2) + χ1·√Δt`, gated against the
fixed constant `MAX_AVG_ANGULAR_FIELD`, then one rotation of `m0`. -/
def spin_langevin_step_m1_core (m0 mf : Grid) (t0 delta_t eta b : ℚ)
    (haml_fn : ℚ → Row → Row) (xi1 : Grid)
    (sq : ℚ → ℚ) (rot : V3 → V3 → V3) : StepResult × Grid :=
  let t1 := t0 + delta_t / 2
  let t2 := t0 + delta_t
  let b_sqrt := sq b
  let noise_1 := scale_grid b_sqrt xi1
  let haml_10 := h_update_par t0 eta haml_fn m0
  let haml_11 := h_update_par t1 eta haml_fn m0
  let haml_12 := h_update_par t2 eta haml_fn m0
  let omega_12 := gzip5
    (fun h0 h1 h2 chi1 _chi2 =>
      (((h0.add (h1.smul 4)).add h2).smul (delta_t / 6)).add
        (chi1.smul (sq delta_t)))
    haml_10 haml_11 haml_12 noise_1 noise_1
  let mean_o12 := avg_field sq omega_12
  if mean_o12 ≥ MAX_AVG_ANGULAR_FIELD then (.Reject mean_o12, mf)
  else (.Accept mean_o12, m_update_par rot omega_12 m0)

/-- `spin_langevin_step_m1`: assertion prologue then the core. -/
def spin_langevin_step_m1 (m0 mf : Grid) (t0 delta_t : ℚ)
    (workShape : ℕ × ℕ) (eta b : ℚ) (haml_fn : ℚ → Row → Row) (xi1 : Grid)
    (sq : ℚ → ℚ) (rot : V3 → V3 → V3) :
    Except String (StepResult × Grid) :=
  if raw_dim m0 ≠ workShape then
    .error "assertion failed: m0.raw_dim() == work.h0.raw_dim()"
  else if raw_dim mf ≠ raw_dim m0 then
    .error "assertion failed: mf.raw_dim() == m0.raw_dim()"
  else if ¬ (b ≥ 0) then
    .error "Stochastic strength must be non-negative"
  else
    .ok (spin_langevin_step_m1_core m0 mf t0 delta_t eta b haml_fn xi1 sq rot)

/-- On exit from `spin_langevin_step_row` the caller's buffers hold: `mf`
the propagated spins, `omega1` the stage-1 full generator `Ω12`, and
`omega2` the stage-2 full generator `Ω22` (the source swaps the two omega
buffers internally to establish this post-condition). -/
structure RowStepOut where
  mf : Row
  omega1 : Row
  omega2 : Row
deriving DecidableEq

/-- `spin_langevin_step_row`: the two-stage nonlinear Magnus step on a
single replica row.  `noise1`/`noise2` are the already-`√b`-scaled noise
rows (`χ1`, `χ2`).  No stability gate, no shape assertions: those belong to
the callers. -/
def spin_langevin_step_row (t0 delta_t eta : ℚ) (haml_fn : ℚ → Row → Row)
    (m0 noise1 noise2 : Row) (sq : ℚ → ℚ) (rot : V3 → V3 → V3) :
    RowStepOut :=
  let t1 := t0 + delta_t / 2
  let t2 := t0 + delta_t
  let haml0 := h_update_row t0 eta haml_fn m0
  let haml1 := h_update_row t1 eta haml_fn m0
  let haml2 := h_update_row t2 eta haml_fn m0
  let omega11 := zipWith3
    (fun h0 h1 chi1 =>
      ((h0.add h1).smul (delta_t / 4)).add (chi1.smul (sq (delta_t / 2))))
    haml0 haml1 noise1
  let omega12 := zipWith5
    (fun h0 h1 h2 chi1 chi2 =>
      (((h0.add (h1.smul 4)).add h2).smul (delta_t / 6)).add
        ((chi1.add chi2).smul (sq (delta_t / 2))))
    haml0 haml1 haml2 noise1 noise2
  let m21 := m_update_row rot omega11 m0
  let haml21 := h_update_row t1 eta haml_fn m21
  let m22 := m_update_row rot omega12 m0
  let haml22 := h_update_row t2 eta haml_fn m22
  let omega_f := zipWith5
    (fun h0 h1 h2 chi1 chi2 =>
      (((h0.add (h1.smul 4)).add h2).smul (delta_t / 6)).add
        ((chi1.add chi2).smul (sq (delta_t / 2))))
    haml0 haml21 haml22 noise1 noise2
  let mfOut := m_update_row rot omega_f m0
  ⟨mfOut, omega12, omega_f⟩

/-- Body of `spin_langevin_step` after its assertion prologue: the parallel
replica scheduler.  Each row draws its own noise (scaled by `√b`), runs the
per-row two-stage step with a private workpad, and reports the mean norm of
its `Ω22`; the scalar result is the sum of the per-row means divided by the
row count.  There is no stability gate on this path. -/
def spin_langevin_step_core (spins_t0 spins_tf : Grid)
    (t0 delta_t eta b : ℚ) (haml_fn : ℚ → Row → Row) (xi1 xi2 : Grid)
    (sq : ℚ → ℚ) (rot : V3 → V3 → V3) : Grid × ℚ :=
  let b_sqrt := sq b
  let outs := zipWith3
    (fun m0_row x1 x2 =>
      let r := spin_langevin_step_row t0 delta_t eta haml_fn m0_row
        (scale_row b_sqrt x1) (scale_row b_sqrt x2) sq rot
      (r.mf, avg_field_row sq r.omega2))
    spins_t0 xi1 xi2
  let avg_om := (outs.map Prod.snd).sum / (((raw_dim spins_tf).1 : ℚ))
  (outs.map Prod.fst, avg_om)

/-- `spin_langevin_step`: the parallel replica scheduler entry point.
Asserts the output shape against the input shape, `b ≥ 0`, and that the RNG
pool holds at least one generator per active worker thread; then
unconditionally propagates every row.  `xi1`/`xi2` are the per-row raw noise
draw sequences (row `i` of `xi1` lists the first `cols` draws of the worker
handling row `i`, row `i` of `xi2` the next `cols`).  Returns the final
spin grid (the overwritten `spins_tf`) and the plain `f64` mean-metric. -/
def spin_langevin_step (spins_t0 spins_tf : Grid) (t0 delta_t eta b : ℚ)
    (haml_fn : ℚ → Row → Row) (poolSize numThreads : ℕ) (xi1 xi2 : Grid)
    (sq : ℚ → ℚ) (rot : V3 → V3 → V3) : Except String (Grid × ℚ) :=
  if raw_dim spins_tf ≠ raw_dim spins_t0 then
    .error "assertion failed: spins_tf.raw_dim() == spins_t0.raw_dim()"
  else if ¬ (b ≥ 0) then
    .error "Stochastic strength must be non-negative"
  else if ¬ (poolSize ≥ numThreads) then
    .error "Insufficient number of RNGs for multithreading"
  else
    .ok (spin_langevin_step_core spins_t0 spins_tf t0 delta_t eta b haml_fn
      xi1 xi2 sq rot)

/-- Body of `spin_langevin_step_old` after its assertion prologue: the bulk
two-stage Magnus stepper.  Stage 1 evaluates `H0, H1, H2` at
`t0, t0+Δt/2, t0+Δt` on the unchanged `t0` spins and assembles `Ω11`/`Ω12`;
the single stability gate compares `mean|Ω12|` against `opts.h_max`; on
`Reject` the `mf` buffer is returned untouched.  With `opts.stage1_only`
the step short-circuits to `mf = rot Ω12 m0`.  Otherwise stage 2 reuses
`H0`, re-evaluates `H21`/`H22` at the rotated states (written through the
`mf` buffer in the source), assembles `Ω22`, and propagates
`mf = rot Ω22 m0`, accepting with `mean|Ω22|`. -/
def spin_langevin_step_old_core (m0 mf : Grid) (t0 delta_t eta b : ℚ)
    (haml_fn : ℚ → Row → Row) (xi1 xi2 : Grid) (opts : SpinLangevinOpts)
    (sq : ℚ → ℚ) (rot : V3 → V3 → V3) : StepResult × Grid :=
  let t1 := t0 + delta_t / 2
  let t2 := t0 + delta_t
  let b_sqrt := sq b
  let noise_1 := scale_grid b_sqrt xi1
  let noise_2 := scale_grid b_sqrt xi2
  let haml_10 := h_update_par t0 eta haml_fn m0
  let haml_11 := h_update_par t1 eta haml_fn m0
  let haml_12 := h_update_par t2 eta haml_fn m0
  let omega_11 := gzip3
    (fun h0 h1 chi1 =>
      ((h0.add h1).smul (delta_t / 4)).add (chi1.smul (sq (delta_t / 2))))
    haml_10 haml_11 noise_1
  let omega_12 := gzip5
    (fun h0 h1 h2 chi1 chi2 =>
      (((h0.add (h1.smul 4)).add h2).smul (delta_t / 6)).add
        ((chi1.add chi2).smul (sq (delta_t / 2))))
    haml_10 haml_11 haml_12 noise_1 noise_2
  let mean_o12 := avg_field sq omega_12
  if mean_o12 ≥ opts.h_max then (.Reject mean_o12, mf)
  else if opts.stage1_only then
    (.Accept mean_o12, m_update_par rot omega_12 m0)
  else
    let m21 := m_update_par rot omega_11 m0
    let haml_21 := h_update_par t1 eta haml_fn m21
    let m22 := m_update_par rot omega_12 m0
    let haml_22 := h_update_par t2 eta haml_fn m22
    let omega2 := gzip5
      (fun h0 h1 h2 chi1 chi2 =>
        (((h0.add (h1.smul 4)).add h2).smul (delta_t / 6)).add
          ((chi1.add chi2).smul (sq (delta_t / 2))))
      haml_10 haml_21 haml_22 noise_1 noise_2
    let mfOut := m_update_par rot omega2 m0
    let mean_o22 := avg_field sq omega2
    (.Accept mean_o22, mfOut)

/-- `spin_langevin_step_old`: the bulk two-stage stepper entry point.
Assertion prologue (workpad `h0` shape against `m0`, `mf` shape against
`m0`, `b ≥ 0`, RNG pool size against the active thread count), then the
core. -/
def spin_langevin_step_old (m0 mf : Grid) (t0 delta_t : ℚ)
    (workShape : ℕ × ℕ) (eta b : ℚ) (haml_fn : ℚ → Row → Row)
    (poolSize numThreads : ℕ) (xi1 xi2 : Grid) (opts : SpinLangevinOpts)
    (sq : ℚ → ℚ) (rot : V3 → V3 → V3) :
    Except String (StepResult × Grid) :=
  if raw_dim m0 ≠ workShape then
    .error "assertion failed: m0.raw_dim() == work.h0.raw_dim()"
  else if raw_dim mf ≠ raw_dim m0 then
    .error "assertion failed: mf.raw_dim() == m0.raw_dim()"
  else if ¬ (b ≥ 0) then
    .error "Stochastic strength must be non-negative"
  else if ¬ (poolSize ≥ numThreads) then
    .error "Insufficient number of RNGs for multithreading"
  else
    .ok (spin_langevin_step_old_core m0 mf t0 delta_t eta b haml_fn xi1 xi2
      opts sq rot)

/-- An `ndarray` 2-D `f64` matrix with its explicit shape metadata, as the
layout adaptor sees it (`ArrayView2<f64>`).  `data` is indexed
row-then-column; a well-formed view has `data.length = nrows` and every row
of length `ncols`. -/
structure Mat2 where
  nrows : ℕ
  ncols : ℕ
  data : List (List ℚ)

/-- Entry `(i, j)` of the matrix (0 outside the stored data). -/
def Mat2.entry (a : Mat2) (i j : ℕ) : ℚ := (a.data.getD i []).getD j 0

/-- One `Vector3d4xf64`: 3 spatial components × 4 SIMD lanes. -/
abbrev Chunk := Fin 3 → Fin 4 → ℚ

/-- The chunk count `(n-1)/4 + 1` computed by `xyz_to_array_chunks`, with
the `usize` subtraction taken modulo 2^64: for `1 ≤ n < 2^64` this is
`⌈n/4⌉`, while for `n = 0` the subtraction wraps around. -/
def n_chunks (n : ℕ) : ℕ := ((n + 2 ^ 64 - 1) % 2 ^ 64) / 4 + 1

/-- One iteration of the copy loop of `xyz_to_array_chunks`: lane `l` of
chunk `c` receives row `4c+l` of the matrix when that row exists, and is
left untouched otherwise (the transposed zip stops at the rows actually
present in this 4-row block). -/
def write_chunk (arr : Mat2) (c : ℕ) (old : Chunk) : Chunk :=
  fun comp lane =>
    if 4 * c + (lane : ℕ) < arr.nrows then
      arr.entry (4 * c + (lane : ℕ)) (comp : ℕ)
    else old comp lane

/-- The copy loop of `xyz_to_array_chunks`: traverse the chunk array in
order, chunk `c` paired with the block of rows `4c..4c+3`. -/
def xyz_write (arr : Mat2) (c : ℕ) : List Chunk → List Chunk
  | [] => []
  | ch :: rest => write_chunk arr c ch :: xyz_write arr (c + 1) rest

/-- `xyz_to_array_chunks`: the lane layout adaptor.  Panics when the input
does not have exactly 3 columns or when the chunk array length differs from
`(n-1)/4 + 1`; otherwise packs row `4c+l` of the matrix into lane `l` of
chunk `c`. -/
def xyz_to_array_chunks (arr : Mat2) (chunk_array : List Chunk) :
    Except String (List Chunk) :=
  if arr.ncols ≠ 3 then
    .error "xyz_to_array_chunks: 3 spatial dimensions required."
  else if chunk_array.length ≠ n_chunks arr.nrows then
    .error "xyz_to_array_chunks: mismatching chunk size"
  else
    .ok (xyz_write arr 0 chunk_array)

/-- The step outcome is the `Reject` variant (with any metric and output
buffer). -/
def Rejected (e : Except String (StepResult × Grid)) : Prop :=
  ∃ r g, e = Except.ok (StepResult.Reject r, g)

/-- Spec §4.3 step 3: `Ω11 = (Δt/4)(H0+H1) + χ1·√(Δt/2)`, with
`H0 = H(t0, m0)`, `H1 = H(t0+Δt/2, m0)` dissipatively corrected using the
unchanged `t0` spins, and `χ1` the already-`√b`-scaled first noise grid. -/
def specOmega11 (sq : ℚ → ℚ) (t0 delta_t eta : ℚ)
    (haml_fn : ℚ → Row → Row) (m0 chi1 : Grid) : Grid :=
  gzip3
    (fun h0 h1 c1 =>
      ((h0.add h1).smul (delta_t / 4)).add (c1.smul (sq (delta_t / 2))))
    (h_update_par t0 eta haml_fn m0)
    (h_update_par (t0 + delta_t / 2) eta haml_fn m0) chi1

/-- Spec §4.3 step 3: `Ω12 = (Δt/6)(H0+4H1+H2) + (χ1+χ2)·√(Δt/2)`, with the
three fields evaluated at `t0, t0+Δt/2, t0+Δt` on the unchanged `t0`
spins. -/
def specOmega12 (sq : ℚ → ℚ) (t0 delta_t eta : ℚ)
    (haml_fn : ℚ → Row → Row) (m0 chi1 chi2 : Grid) : Grid :=
  gzip5
    (fun h0 h1 h2 c1 c2 =>
      (((h0.add (h1.smul 4)).add h2).smul (delta_t / 6)).add
        ((c1.add c2).smul (sq (delta_t / 2))))
    (h_update_par t0 eta haml_fn m0)
    (h_update_par (t0 + delta_t / 2) eta haml_fn m0)
    (h_update_par (t0 + delta_t) eta haml_fn m0) chi1 chi2

/-- Spec §4.3 steps 5-7: the stage-2 generator
`Ω22 = (Δt/6)(H20 + 4·H21 + H22) + (χ1+χ2)·√(Δt/2)` where `H20 := H0` is
reused, `H21 = H(t0+Δt/2, rotate(Ω11, m0))` and
`H22 = H(t0+Δt, rotate(Ω12, m0))` are re-evaluated at the rotated states
(each dissipatively corrected using the state it was evaluated at). -/
def specOmega22 (sq : ℚ → ℚ) (t0 delta_t eta : ℚ)
    (haml_fn : ℚ → Row → Row) (m0 chi1 chi2 : Grid)
    (rot : V3 → V3 → V3) : Grid :=
  let m21 := m_update_par rot (specOmega11 sq t0 delta_t eta haml_fn m0 chi1) m0
  let m22 := m_update_par rot
    (specOmega12 sq t0 delta_t eta haml_fn m0 chi1 chi2) m0
  gzip5
    (fun h0 h1 h2 c1 c2 =>
      (((h0.add (h1.smul 4)).add h2).smul (delta_t / 6)).add
        ((c1.add c2).smul (sq (delta_t / 2))))
    (h_update_par t0 eta haml_fn m0)
    (h_update_par (t0 + delta_t / 2) eta haml_fn m21)
    (h_update_par (t0 + delta_t) eta haml_fn m22) chi1 chi2

/-- The gate metric of the two-stage/stage-1-only bulk stepper: the mean
Euclidean norm of `Ω12` built from the `√b`-scaled noise draws. -/
def old_gate_metric (sq : ℚ → ℚ) (t0 delta_t eta b : ℚ)
    (haml_fn : ℚ → Row → Row) (m0 xi1 xi2 : Grid) : ℚ :=
  avg_field sq (specOmega12 sq t0 delta_t eta haml_fn m0
    (scale_grid (sq b) xi1) (scale_grid (sq b) xi2))

/-- The deterministic generator `Ω1 = H1·Δt` of the cheap stepper, with
`H1` the dissipatively corrected field at the midpoint on the `t0` spins. -/
def specOmega1M0 (t0 delta_t eta : ℚ) (haml_fn : ℚ → Row → Row)
    (m0 : Grid) : Grid :=
  (h_update_par (t0 + delta_t / 2) eta haml_fn m0).map
    (fun row => row.map (fun h0 => h0.smul delta_t))

/-- The gate metric of the cheap stepper: the mean Euclidean norm of
`Ω1 = H1·Δt`. -/
def m0_gate_metric (sq : ℚ → ℚ) (t0 delta_t eta : ℚ)
    (haml_fn : ℚ → Row → Row) (m0 : Grid) : ℚ :=
  avg_field sq (specOmega1M0 t0 delta_t eta haml_fn m0)

/-- The generator of the stage-1-only entry point `spin_langevin_step_m1`:
`(Δt/6)(H0+4H1+H2) + χ1·√Δt` (one noise grid, scaled by `√Δt`). -/
def specOmegaM1 (sq : ℚ → ℚ) (t0 delta_t eta b : ℚ)
    (haml_fn : ℚ → Row → Row) (m0 xi1 : Grid) : Grid :=
  gzip5
    (fun h0 h1 h2 chi1 _chi2 =>
      (((h0.add (h1.smul 4)).add h2).smul (delta_t / 6)).add
        (chi1.smul (sq delta_t)))
    (h_update_par t0 eta haml_fn m0)
    (h_update_par (t0 + delta_t / 2) eta haml_fn m0)
    (h_update_par (t0 + delta_t) eta haml_fn m0)
    (scale_grid (sq b) xi1) (scale_grid (sq b) xi1)

/-- The gate metric of `spin_langevin_step_m1`. -/
def m1_gate_metric (sq : ℚ → ℚ) (t0 delta_t eta b : ℚ)
    (haml_fn : ℚ → Row → Row) (m0 xi1 : Grid) : ℚ :=
  avg_field sq (specOmegaM1 sq t0 delta_t eta b haml_fn m0 xi1)

/-- Identity stand-in for the floating square root at concrete witness
inputs (any function is admissible for the `sq` collaborator slot). -/
def sqId : ℚ → ℚ := fun x => x

/-- Concrete stand-in for the external rotation applier at witness inputs:
translate the vector by the generator. -/
def rotAdd : V3 → V3 → V3 := fun om v => v.add om

/-- Hamiltonian callback producing the constant field `(1,0,0)` on every
spin. -/
def hamlX : ℚ → Row → Row := fun _ m => m.map (fun _ => ⟨1, 0, 0⟩)

/-- Hamiltonian callback producing the constant field `(4,0,0)` on every
spin. -/
def hamlX4 : ℚ → Row → Row := fun _ m => m.map (fun _ => ⟨4, 0, 0⟩)

/-- Hamiltonian callback producing the zero field on every spin. -/
def hamlZero : ℚ → Row → Row := fun _ m => m.map (fun _ => ⟨0, 0, 0⟩)

/-- `Except`-level observer for a fatal precondition failure (a Rust
panic). -/
def isPanic {α : Type} : Except String α → Bool
  | .error _ => true
  | .ok _ => false

/-- Concrete chunk constants for witness inputs. -/
def chunk7 : Chunk := fun _ _ => 7

/-- Concrete chunk constants for witness inputs. -/
def chunk8 : Chunk := fun _ _ => 8


theorem spin_langevin_step_old_guards (m0 mf : Grid) (t0 delta_t : ℚ)
    (workShape : ℕ × ℕ) (eta b : ℚ) (haml_fn : ℚ → Row → Row)
    (poolSize numThreads : ℕ) (xi1 xi2 : Grid) (opts : SpinLangevinOpts)
    (sq : ℚ → ℚ) (rot : V3 → V3 → V3)
    (hws : raw_dim m0 = workShape) (hmf : raw_dim mf = raw_dim m0)
    (hb : b ≥ 0) (hpool : poolSize ≥ numThreads) :
    spin_langevin_step_old m0 mf t0 delta_t workShape eta b haml_fn poolSize
        numThreads xi1 xi2 opts sq rot
      = .ok (spin_langevin_step_old_core m0 mf t0 delta_t eta b haml_fn
          xi1 xi2 opts sq rot) := by
  unfold spin_langevin_step_old
  rw [if_neg (by simp [hws]), if_neg (by simp [hmf]), if_neg (by simp [hb]),
    if_neg (by simp [hpool])]

theorem spin_langevin_step_m0_guards (m0 mf : Grid) (t0 delta_t : ℚ)
    (workShape : ℕ × ℕ) (eta b : ℚ) (haml_fn : ℚ → Row → Row) (xi : Grid)
    (h_max : ℚ) (sq : ℚ → ℚ) (rot : V3 → V3 → V3)
    (hws : raw_dim m0 = workShape) (hmf : raw_dim mf = raw_dim m0)
    (hb : b ≥ 0) :
    spin_langevin_step_m0 m0 mf t0 delta_t workShape eta b haml_fn xi h_max
        sq rot
      = .ok (spin_langevin_step_m0_core m0 mf t0 delta_t eta b haml_fn xi
          h_max sq rot) := by
  unfold spin_langevin_step_m0
  rw [if_neg (by simp [hws]), if_neg (by simp [hmf]), if_neg (by simp [hb])]

theorem spin_langevin_step_m1_guards (m0 mf : Grid) (t0 delta_t : ℚ)
    (workShape : ℕ × ℕ) (eta b : ℚ) (haml_fn : ℚ → Row → Row) (xi1 : Grid)
    (sq : ℚ → ℚ) (rot : V3 → V3 → V3)
    (hws : raw_dim m0 = workShape) (hmf : raw_dim mf = raw_dim m0)
    (hb : b ≥ 0) :
    spin_langevin_step_m1 m0 mf t0 delta_t workShape eta b haml_fn xi1 sq rot
      = .ok (spin_langevin_step_m1_core m0 mf t0 delta_t eta b haml_fn xi1
          sq rot) := by
  unfold spin_langevin_step_m1
  rw [if_neg (by simp [hws]), if_neg (by simp [hmf]), if_neg (by simp [hb])]

theorem spin_langevin_step_guards (spins_t0 spins_tf : Grid)
    (t0 delta_t eta b : ℚ) (haml_fn : ℚ → Row → Row)
    (poolSize numThreads : ℕ) (xi1 xi2 : Grid) (sq : ℚ → ℚ)
    (rot : V3 → V3 → V3)
    (htf : raw_dim spins_tf = raw_dim spins_t0) (hb : b ≥ 0)
    (hpool : poolSize ≥ numThreads) :
    spin_langevin_step spins_t0 spins_tf t0 delta_t eta b haml_fn poolSize
        numThreads xi1 xi2 sq rot
      = .ok (spin_langevin_step_core spins_t0 spins_tf t0 delta_t eta b
          haml_fn xi1 xi2 sq rot) := by
  unfold spin_langevin_step
  rw [if_neg (by simp [htf]), if_neg (by simp [hb]), if_neg (by simp [hpool])]

theorem old_core_reject (m0 mf : Grid) (t0 delta_t eta b : ℚ)
    (haml_fn : ℚ → Row → Row) (xi1 xi2 : Grid) (opts : SpinLangevinOpts)
    (sq : ℚ → ℚ) (rot : V3 → V3 → V3)
    (hgate : old_gate_metric sq t0 delta_t eta b haml_fn m0 xi1 xi2
      ≥ opts.h_max) :
    spin_langevin_step_old_core m0 mf t0 delta_t eta b haml_fn xi1 xi2 opts
        sq rot
      = (StepResult.Reject
          (old_gate_metric sq t0 delta_t eta b haml_fn m0 xi1 xi2), mf) := by
  simp only [spin_langevin_step_old_core]
  split
  · rfl
  · next h => exact absurd hgate h

theorem old_core_stage1 (m0 mf : Grid) (t0 delta_t eta b : ℚ)
    (haml_fn : ℚ → Row → Row) (xi1 xi2 : Grid) (opts : SpinLangevinOpts)
    (sq : ℚ → ℚ) (rot : V3 → V3 → V3)
    (hgate : old_gate_metric sq t0 delta_t eta b haml_fn m0 xi1 xi2
      < opts.h_max)
    (hs1 : opts.stage1_only = true) :
    spin_langevin_step_old_core m0 mf t0 delta_t eta b haml_fn xi1 xi2 opts
        sq rot
      = (StepResult.Accept
          (old_gate_metric sq t0 delta_t eta b haml_fn m0 xi1 xi2),
         m_update_par rot
           (specOmega12 sq t0 delta_t eta haml_fn m0
             (scale_grid (sq b) xi1) (scale_grid (sq b) xi2)) m0) := by
  simp only [spin_langevin_step_old_core]
  split
  · next h => exact absurd h (not_le.mpr hgate)
  · rfl

theorem old_core_accept (m0 mf : Grid) (t0 delta_t eta b : ℚ)
    (haml_fn : ℚ → Row → Row) (xi1 xi2 : Grid) (opts : SpinLangevinOpts)
    (sq : ℚ → ℚ) (rot : V3 → V3 → V3)
    (hgate : old_gate_metric sq t0 delta_t eta b haml_fn m0 xi1 xi2
      < opts.h_max)
    (hs1 : opts.stage1_only = false) :
    spin_langevin_step_old_core m0 mf t0 delta_t eta b haml_fn xi1 xi2 opts
        sq rot
      = (StepResult.Accept
          (avg_field sq (specOmega22 sq t0 delta_t eta haml_fn m0
            (scale_grid (sq b) xi1) (scale_grid (sq b) xi2) rot)),
         m_update_par rot
           (specOmega22 sq t0 delta_t eta haml_fn m0
             (scale_grid (sq b) xi1) (scale_grid (sq b) xi2) rot) m0) := by
  simp only [spin_langevin_step_old_core]
  split
  · next h => exact absurd h (not_le.mpr hgate)
  · rw [hs1]
    rfl

theorem m1_core_reject (m0 mf : Grid) (t0 delta_t eta b : ℚ)
    (haml_fn : ℚ → Row → Row) (xi1 : Grid) (sq : ℚ → ℚ)
    (rot : V3 → V3 → V3)
    (hgate : m1_gate_metric sq t0 delta_t eta b haml_fn m0 xi1
      ≥ MAX_AVG_ANGULAR_FIELD) :
    spin_langevin_step_m1_core m0 mf t0 delta_t eta b haml_fn xi1 sq rot
      = (StepResult.Reject
          (m1_gate_metric sq t0 delta_t eta b haml_fn m0 xi1), mf) := by
  simp only [spin_langevin_step_m1_core]
  split
  · rfl
  · next h => exact absurd hgate h

theorem m1_core_accept (m0 mf : Grid) (t0 delta_t eta b : ℚ)
    (haml_fn : ℚ → Row → Row) (xi1 : Grid) (sq : ℚ → ℚ)
    (rot : V3 → V3 → V3)
    (hgate : m1_gate_metric sq t0 delta_t eta b haml_fn m0 xi1
      < MAX_AVG_ANGULAR_FIELD) :
    spin_langevin_step_m1_core m0 mf t0 delta_t eta b haml_fn xi1 sq rot
      = (StepResult.Accept
          (m1_gate_metric sq t0 delta_t eta b haml_fn m0 xi1),
         m_update_par rot
           (specOmegaM1 sq t0 delta_t eta b haml_fn m0 xi1) m0) := by
  simp only [spin_langevin_step_m1_core]
  split
  · next h => exact absurd h (not_le.mpr hgate)
  · rfl

theorem m0_core_reject (m0 mf : Grid) (t0 delta_t eta b : ℚ)
    (haml_fn : ℚ → Row → Row) (xi : Grid) (h_max : ℚ) (sq : ℚ → ℚ)
    (rot : V3 → V3 → V3)
    (hgate : m0_gate_metric sq t0 delta_t eta haml_fn m0 ≥ h_max) :
    spin_langevin_step_m0_core m0 mf t0 delta_t eta b haml_fn xi h_max sq rot
      = (StepResult.Reject (m0_gate_metric sq t0 delta_t eta haml_fn m0),
          mf) := by
  simp only [spin_langevin_step_m0_core]
  split
  · rfl
  · next h => exact absurd hgate h

theorem m0_core_accept (m0 mf : Grid) (t0 delta_t eta b : ℚ)
    (haml_fn : ℚ → Row → Row) (xi : Grid) (h_max : ℚ) (sq : ℚ → ℚ)
    (rot : V3 → V3 → V3)
    (hgate : m0_gate_metric sq t0 delta_t eta haml_fn m0 < h_max) :
    spin_langevin_step_m0_core m0 mf t0 delta_t eta b haml_fn xi h_max sq rot
      = (StepResult.Accept (m0_gate_metric sq t0 delta_t eta haml_fn m0),
         m_update_par rot
           (xi.map (fun row =>
             row.map (fun v => (v.smul (sq b)).smul (sq delta_t))))
           (m_update_par rot (specOmega1M0 t0 delta_t eta haml_fn m0)
             m0)) := by
  simp only [spin_langevin_step_m0_core]
  split
  · next h => exact absurd h (not_le.mpr hgate)
  · rfl

theorem h_update_par_singleton (t eta : ℚ) (haml_fn : ℚ → Row → Row)
    (r : Row) : h_update_par t eta haml_fn [r] = [h_update_row t eta haml_fn r] :=
  rfl

theorem m_update_par_singleton (rot : V3 → V3 → V3) (o m : Row) :
    m_update_par rot [o] [m] = [m_update_row rot o m] :=
  rfl

theorem scale_grid_singleton (c : ℚ) (r : Row) :
    scale_grid c [r] = [scale_row c r] :=
  rfl

theorem avg_field_singleton (sq : ℚ → ℚ) (r : Row) :
    avg_field sq [r] = avg_field_row sq r := by
  simp [avg_field, avg_field_row]

theorem Rejected_ok_reject (r : ℚ) (g : Grid) :
    Rejected (Except.ok (StepResult.Reject r, g)) :=
  ⟨r, g, rfl⟩

theorem not_Rejected_ok_accept (a : ℚ) (g : Grid) :
    ¬ Rejected (Except.ok (StepResult.Accept a, g)) := by
  rintro ⟨r, g', h⟩
  simp at h

/-- The stage-1 generator `Ω12` of the bulk two-stage stepper equals, on a
one-row array, the `omega1` post-condition of the per-row stepper. -/
theorem specOmega12_singleton (sq : ℚ → ℚ) (t0 delta_t eta : ℚ)
    (haml_fn : ℚ → Row → Row) (r n1 n2 : Row) :
    specOmega12 sq t0 delta_t eta haml_fn [r] [n1] [n2]
      = [(spin_langevin_step_row t0 delta_t eta haml_fn r n1 n2 sq
          rot).omega1] := by
  rfl

/-- The stage-2 generator `Ω22` of the bulk two-stage stepper equals, on a
one-row array, the `omega2` post-condition of the per-row stepper. -/
theorem specOmega22_singleton (sq : ℚ → ℚ) (t0 delta_t eta : ℚ)
    (haml_fn : ℚ → Row → Row) (r n1 n2 : Row) (rot : V3 → V3 → V3) :
    specOmega22 sq t0 delta_t eta haml_fn [r] [n1] [n2] rot
      = [(spin_langevin_step_row t0 delta_t eta haml_fn r n1 n2 sq
          rot).omega2] := by
  rfl


/-- Claim C1: for the two-stage Magnus stepper with `Δt > 0`, `b ≥ 0` and
matching shapes, when the stability gate passes (and the short-circuit
option is off): the fields are evaluated at `t0`, `t0+Δt/2`, `t0+Δt` on the
unchanged `t0` spins with the dissipative correction applied with the same
spins, the stage-1 generators are `Ω11 = (Δt/4)(H0+H1) + χ1·√(Δt/2)` and
`Ω12 = (Δt/6)(H0+4H1+H2) + (χ1+χ2)·√(Δt/2)` (the gate hypothesis is stated
on that `Ω12`), stage 2 reuses `H20 := H0` and re-evaluates `H21` at
`rotate(Ω11, m0)` and `H22` at `rotate(Ω12, m0)`, forms
`Ω22 = (Δt/6)(H20+4H21+H22) + (χ1+χ2)·√(Δt/2)`, writes the final output
`mf = rotate(Ω22, m0)` and returns `Accept` with the mean norm of `Ω22`
(all of this is what `specOmega11`/`specOmega12`/`specOmega22` spell
out). -/
theorem two_stage_magnus_step_spec (m0 mf : Grid) (t0 delta_t : ℚ)
    (workShape : ℕ × ℕ) (eta b : ℚ) (haml_fn : ℚ → Row → Row)
    (poolSize numThreads : ℕ) (xi1 xi2 : Grid) (opts : SpinLangevinOpts)
    (sq : ℚ → ℚ) (rot : V3 → V3 → V3)
    (hdt : 0 < delta_t) (hb : b ≥ 0)
    (hws : raw_dim m0 = workShape) (hmf : raw_dim mf = raw_dim m0)
    (hpool : poolSize ≥ numThreads) (hs1 : opts.stage1_only = false)
    (hgate : old_gate_metric sq t0 delta_t eta b haml_fn m0 xi1 xi2
      < opts.h_max) :
    spin_langevin_step_old m0 mf t0 delta_t workShape eta b haml_fn poolSize
        numThreads xi1 xi2 opts sq rot
      = .ok (StepResult.Accept
          (avg_field sq (specOmega22 sq t0 delta_t eta haml_fn m0
            (scale_grid (sq b) xi1) (scale_grid (sq b) xi2) rot)),
         m_update_par rot
           (specOmega22 sq t0 delta_t eta haml_fn m0
             (scale_grid (sq b) xi1) (scale_grid (sq b) xi2) rot) m0) := by
  rw [spin_langevin_step_old_guards m0 mf t0 delta_t workShape eta b haml_fn
    poolSize numThreads xi1 xi2 opts sq rot hws hmf hb hpool]
  rw [old_core_accept m0 mf t0 delta_t eta b haml_fn xi1 xi2 opts sq rot
    hgate hs1]

theorem two_stage_magnus_step_spec_witness :
    spin_langevin_step_old [[⟨0, 0, 1⟩]] [[⟨0, 0, 1⟩]] 0 1 (1, 1) 0 0 hamlX
        1 1 [[⟨0, 0, 0⟩]] [[⟨0, 0, 0⟩]] ⟨10, false⟩ sqId rotAdd
      = .ok (StepResult.Accept
          (avg_field sqId (specOmega22 sqId 0 1 0 hamlX [[⟨0, 0, 1⟩]]
            (scale_grid (sqId 0) [[⟨0, 0, 0⟩]])
            (scale_grid (sqId 0) [[⟨0, 0, 0⟩]]) rotAdd)),
         m_update_par rotAdd
           (specOmega22 sqId 0 1 0 hamlX [[⟨0, 0, 1⟩]]
             (scale_grid (sqId 0) [[⟨0, 0, 0⟩]])
             (scale_grid (sqId 0) [[⟨0, 0, 0⟩]]) rotAdd) [[⟨0, 0, 1⟩]]) :=
  two_stage_magnus_step_spec [[⟨0, 0, 1⟩]] [[⟨0, 0, 1⟩]] 0 1 (1, 1) 0 0
    hamlX 1 1 [[⟨0, 0, 0⟩]] [[⟨0, 0, 0⟩]] ⟨10, false⟩ sqId rotAdd
    (by norm_num) (by norm_num) (by norm_num [raw_dim]) (by norm_num) (by norm_num)
    (by norm_num)
    (by norm_num [old_gate_metric, specOmega12, gzip5, zipWith5, h_update_par,
      h_update_row, sl_add_dissipative, hamlX, scale_grid, scale_row, sqId,
      avg_field, V3.add, V3.sub, V3.smul, V3.cross, V3.dot])

/-- Claim C2: for each of the three gated steppers (the bulk two-stage
`spin_langevin_step_old`, the stage-1-only `spin_langevin_step_m1`, the
cheap `spin_langevin_step_m0`), whenever the mean Euclidean norm of the
gated generator reaches its threshold, the call returns `Reject` carrying
that mean, and the caller's output buffer `mf` is returned exactly as it
was before the call: the gate fires strictly before any write to `mf`. -/
theorem gate_reject_preserves_output :
    (∀ (m0 mf : Grid) (t0 delta_t : ℚ) (workShape : ℕ × ℕ) (eta b : ℚ)
       (haml_fn : ℚ → Row → Row) (poolSize numThreads : ℕ) (xi1 xi2 : Grid)
       (opts : SpinLangevinOpts) (sq : ℚ → ℚ) (rot : V3 → V3 → V3),
       raw_dim m0 = workShape → raw_dim mf = raw_dim m0 → b ≥ 0 →
       poolSize ≥ numThreads →
       old_gate_metric sq t0 delta_t eta b haml_fn m0 xi1 xi2 ≥ opts.h_max →
       spin_langevin_step_old m0 mf t0 delta_t workShape eta b haml_fn
           poolSize numThreads xi1 xi2 opts sq rot
         = .ok (StepResult.Reject
             (old_gate_metric sq t0 delta_t eta b haml_fn m0 xi1 xi2), mf))
    ∧ (∀ (m0 mf : Grid) (t0 delta_t : ℚ) (workShape : ℕ × ℕ) (eta b : ℚ)
       (haml_fn : ℚ → Row → Row) (xi1 : Grid) (sq : ℚ → ℚ)
       (rot : V3 → V3 → V3),
       raw_dim m0 = workShape → raw_dim mf = raw_dim m0 → b ≥ 0 →
       m1_gate_metric sq t0 delta_t eta b haml_fn m0 xi1
         ≥ MAX_AVG_ANGULAR_FIELD →
       spin_langevin_step_m1 m0 mf t0 delta_t workShape eta b haml_fn xi1
           sq rot
         = .ok (StepResult.Reject
             (m1_gate_metric sq t0 delta_t eta b haml_fn m0 xi1), mf))
    ∧ (∀ (m0 mf : Grid) (t0 delta_t : ℚ) (workShape : ℕ × ℕ) (eta b : ℚ)
       (haml_fn : ℚ → Row → Row) (xi : Grid) (h_max : ℚ) (sq : ℚ → ℚ)
       (rot : V3 → V3 → V3),
       raw_dim m0 = workShape → raw_dim mf = raw_dim m0 → b ≥ 0 →
       m0_gate_metric sq t0 delta_t eta haml_fn m0 ≥ h_max →
       spin_langevin_step_m0 m0 mf t0 delta_t workShape eta b haml_fn xi
           h_max sq rot
         = .ok (StepResult.Reject
             (m0_gate_metric sq t0 delta_t eta haml_fn m0), mf)) := by
  refine ⟨?_, ?_, ?_⟩
  · intro m0 mf t0 delta_t workShape eta b haml_fn poolSize numThreads xi1
      xi2 opts sq rot hws hmf hb hpool hgate
    rw [spin_langevin_step_old_guards m0 mf t0 delta_t workShape eta b
      haml_fn poolSize numThreads xi1 xi2 opts sq rot hws hmf hb hpool]
    rw [old_core_reject m0 mf t0 delta_t eta b haml_fn xi1 xi2 opts sq rot
      hgate]
  · intro m0 mf t0 delta_t workShape eta b haml_fn xi1 sq rot hws hmf hb
      hgate
    rw [spin_langevin_step_m1_guards m0 mf t0 delta_t workShape eta b
      haml_fn xi1 sq rot hws hmf hb]
    rw [m1_core_reject m0 mf t0 delta_t eta b haml_fn xi1 sq rot hgate]
  · intro m0 mf t0 delta_t workShape eta b haml_fn xi h_max sq rot hws hmf
      hb hgate
    rw [spin_langevin_step_m0_guards m0 mf t0 delta_t workShape eta b
      haml_fn xi h_max sq rot hws hmf hb]
    rw [m0_core_reject m0 mf t0 delta_t eta b haml_fn xi h_max sq rot hgate]

theorem gate_reject_preserves_output_witness :
    (spin_langevin_step_old [[⟨0, 0, 1⟩]] [[⟨9, 9, 9⟩]] 0 1 (1, 1) 0 0 hamlX
        1 1 [[⟨0, 0, 0⟩]] [[⟨0, 0, 0⟩]] SpinLangevinOpts.default sqId rotAdd
      = .ok (StepResult.Reject
          (old_gate_metric sqId 0 1 0 0 hamlX [[⟨0, 0, 1⟩]] [[⟨0, 0, 0⟩]]
            [[⟨0, 0, 0⟩]]), [[⟨9, 9, 9⟩]]))
    ∧ (spin_langevin_step_m1 [[⟨0, 0, 1⟩]] [[⟨9, 9, 9⟩]] 0 1 (1, 1) 0 0
        hamlX4 [[⟨0, 0, 0⟩]] sqId rotAdd
      = .ok (StepResult.Reject
          (m1_gate_metric sqId 0 1 0 0 hamlX4 [[⟨0, 0, 1⟩]] [[⟨0, 0, 0⟩]]),
          [[⟨9, 9, 9⟩]]))
    ∧ (spin_langevin_step_m0 [[⟨0, 0, 1⟩]] [[⟨9, 9, 9⟩]] 0 1 (1, 1) 0 0
        hamlX [[⟨0, 0, 0⟩]] (1/10) sqId rotAdd
      = .ok (StepResult.Reject
          (m0_gate_metric sqId 0 1 0 hamlX [[⟨0, 0, 1⟩]]), [[⟨9, 9, 9⟩]])) :=
  ⟨gate_reject_preserves_output.1 [[⟨0, 0, 1⟩]] [[⟨9, 9, 9⟩]] 0 1 (1, 1) 0 0
      hamlX 1 1 [[⟨0, 0, 0⟩]] [[⟨0, 0, 0⟩]] SpinLangevinOpts.default sqId
      rotAdd (by norm_num [raw_dim]) (by norm_num [raw_dim]) (by norm_num)
      (by norm_num)
      (by norm_num [old_gate_metric, specOmega12, gzip5, zipWith5,
        h_update_par, h_update_row, sl_add_dissipative, hamlX, scale_grid,
        scale_row, sqId, avg_field, V3.add, V3.sub, V3.smul, V3.cross,
        V3.dot, SpinLangevinOpts.default]),
   gate_reject_preserves_output.2.1 [[⟨0, 0, 1⟩]] [[⟨9, 9, 9⟩]] 0 1 (1, 1)
      0 0 hamlX4 [[⟨0, 0, 0⟩]] sqId rotAdd (by norm_num [raw_dim])
      (by norm_num [raw_dim]) (by norm_num)
      (by norm_num [m1_gate_metric, specOmegaM1, gzip5, zipWith5,
        h_update_par, h_update_row, sl_add_dissipative, hamlX4, scale_grid,
        scale_row, sqId, avg_field, V3.add, V3.sub, V3.smul, V3.cross,
        V3.dot, MAX_AVG_ANGULAR_FIELD]),
   gate_reject_preserves_output.2.2 [[⟨0, 0, 1⟩]] [[⟨9, 9, 9⟩]] 0 1 (1, 1)
      0 0 hamlX [[⟨0, 0, 0⟩]] (1/10) sqId rotAdd (by norm_num [raw_dim])
      (by norm_num [raw_dim]) (by norm_num)
      (by norm_num [m0_gate_metric, specOmega1M0, h_update_par,
        h_update_row, sl_add_dissipative, hamlX, sqId, avg_field, V3.add,
        V3.sub, V3.smul, V3.cross, V3.dot])⟩

/-- Claim C3 counterexample: the two-stage stepper `spin_langevin_step_old`
run with its default options rejects a step whose gate metric is `1`, far
below π — so its stability gate does not use the fixed threshold π, contrary
to the claim (it uses `opts.h_max`, default `0.2`). -/
theorem stability_gate_thresholds_cex :
    spin_langevin_step_old [[⟨0, 0, 1⟩]] [[⟨5, 5, 5⟩]] 0 1 (1, 1) 0 0 hamlX
        1 1 [[⟨0, 0, 0⟩]] [[⟨0, 0, 0⟩]] SpinLangevinOpts.default sqId rotAdd
      = .ok (StepResult.Reject 1, [[⟨5, 5, 5⟩]])
    ∧ (1 : ℚ) < MAX_AVG_ANGULAR_FIELD := by
  constructor
  · rw [spin_langevin_step_old_guards [[⟨0, 0, 1⟩]] [[⟨5, 5, 5⟩]] 0 1 (1, 1)
      0 0 hamlX 1 1 [[⟨0, 0, 0⟩]] [[⟨0, 0, 0⟩]] SpinLangevinOpts.default
      sqId rotAdd (by norm_num [raw_dim]) (by norm_num [raw_dim])
      (by norm_num) (by norm_num)]
    rw [old_core_reject [[⟨0, 0, 1⟩]] [[⟨5, 5, 5⟩]] 0 1 0 0 hamlX
      [[⟨0, 0, 0⟩]] [[⟨0, 0, 0⟩]] SpinLangevinOpts.default sqId rotAdd
      (by norm_num [old_gate_metric, specOmega12, gzip5, zipWith5,
        h_update_par, h_update_row, sl_add_dissipative, hamlX, scale_grid,
        scale_row, sqId, avg_field, V3.add, V3.sub, V3.smul, V3.cross,
        V3.dot, SpinLangevinOpts.default])]
    norm_num [old_gate_metric, specOmega12, gzip5, zipWith5, h_update_par,
      h_update_row, sl_add_dissipative, hamlX, scale_grid, scale_row, sqId,
      avg_field, V3.add, V3.sub, V3.smul, V3.cross, V3.dot]
  · norm_num [MAX_AVG_ANGULAR_FIELD]

/-- Claim C3 (amended): the threshold assignment is the opposite of the
claimed one.  The stage-1-only entry point `spin_langevin_step_m1` gates
against the fixed constant `MAX_AVG_ANGULAR_FIELD` (the `f64` value of π),
while the two-stage `spin_langevin_step_old` gates against the
caller-configurable `opts.h_max` whose default value is `0.2`, and the
cheap variant `spin_langevin_step_m0` gates against its caller-supplied
`h_max` argument (which has no default of its own). -/
theorem stability_gate_thresholds :
    SpinLangevinOpts.default.h_max = 1/5
    ∧ (∀ (m0 mf : Grid) (t0 delta_t : ℚ) (workShape : ℕ × ℕ) (eta b : ℚ)
        (haml_fn : ℚ → Row → Row) (xi1 : Grid) (sq : ℚ → ℚ)
        (rot : V3 → V3 → V3),
        raw_dim m0 = workShape → raw_dim mf = raw_dim m0 → b ≥ 0 →
        (Rejected (spin_langevin_step_m1 m0 mf t0 delta_t workShape eta b
            haml_fn xi1 sq rot)
          ↔ m1_gate_metric sq t0 delta_t eta b haml_fn m0 xi1
              ≥ MAX_AVG_ANGULAR_FIELD))
    ∧ (∀ (m0 mf : Grid) (t0 delta_t : ℚ) (workShape : ℕ × ℕ) (eta b : ℚ)
        (haml_fn : ℚ → Row → Row) (poolSize numThreads : ℕ) (xi1 xi2 : Grid)
        (opts : SpinLangevinOpts) (sq : ℚ → ℚ) (rot : V3 → V3 → V3),
        raw_dim m0 = workShape → raw_dim mf = raw_dim m0 → b ≥ 0 →
        poolSize ≥ numThreads →
        (Rejected (spin_langevin_step_old m0 mf t0 delta_t workShape eta b
            haml_fn poolSize numThreads xi1 xi2 opts sq rot)
          ↔ old_gate_metric sq t0 delta_t eta b haml_fn m0 xi1 xi2
              ≥ opts.h_max))
    ∧ (∀ (m0 mf : Grid) (t0 delta_t : ℚ) (workShape : ℕ × ℕ) (eta b : ℚ)
        (haml_fn : ℚ → Row → Row) (xi : Grid) (h_max : ℚ) (sq : ℚ → ℚ)
        (rot : V3 → V3 → V3),
        raw_dim m0 = workShape → raw_dim mf = raw_dim m0 → b ≥ 0 →
        (Rejected (spin_langevin_step_m0 m0 mf t0 delta_t workShape eta b
            haml_fn xi h_max sq rot)
          ↔ m0_gate_metric sq t0 delta_t eta haml_fn m0 ≥ h_max)) := by
  refine ⟨rfl, ?_, ?_, ?_⟩
  · intro m0 mf t0 delta_t workShape eta b haml_fn xi1 sq rot hws hmf hb
    rw [spin_langevin_step_m1_guards m0 mf t0 delta_t workShape eta b
      haml_fn xi1 sq rot hws hmf hb]
    constructor
    · intro hrej
      by_contra hlt
      rw [m1_core_accept m0 mf t0 delta_t eta b haml_fn xi1 sq rot
        (not_le.mp hlt)] at hrej
      exact not_Rejected_ok_accept _ _ hrej
    · intro hge
      rw [m1_core_reject m0 mf t0 delta_t eta b haml_fn xi1 sq rot hge]
      exact Rejected_ok_reject _ _
  · intro m0 mf t0 delta_t workShape eta b haml_fn poolSize numThreads xi1
      xi2 opts sq rot hws hmf hb hpool
    rw [spin_langevin_step_old_guards m0 mf t0 delta_t workShape eta b
      haml_fn poolSize numThreads xi1 xi2 opts sq rot hws hmf hb hpool]
    constructor
    · intro hrej
      by_contra hlt
      cases hs : opts.stage1_only with
      | true =>
        rw [old_core_stage1 m0 mf t0 delta_t eta b haml_fn xi1 xi2 opts sq
          rot (not_le.mp hlt) hs] at hrej
        exact not_Rejected_ok_accept _ _ hrej
      | false =>
        rw [old_core_accept m0 mf t0 delta_t eta b haml_fn xi1 xi2 opts sq
          rot (not_le.mp hlt) hs] at hrej
        exact not_Rejected_ok_accept _ _ hrej
    · intro hge
      rw [old_core_reject m0 mf t0 delta_t eta b haml_fn xi1 xi2 opts sq rot
        hge]
      exact Rejected_ok_reject _ _
  · intro m0 mf t0 delta_t workShape eta b haml_fn xi h_max sq rot hws hmf
      hb
    rw [spin_langevin_step_m0_guards m0 mf t0 delta_t workShape eta b
      haml_fn xi h_max sq rot hws hmf hb]
    constructor
    · intro hrej
      by_contra hlt
      rw [m0_core_accept m0 mf t0 delta_t eta b haml_fn xi h_max sq rot
        (not_le.mp hlt)] at hrej
      exact not_Rejected_ok_accept _ _ hrej
    · intro hge
      rw [m0_core_reject m0 mf t0 delta_t eta b haml_fn xi h_max sq rot hge]
      exact Rejected_ok_reject _ _

theorem stability_gate_thresholds_witness :
    Rejected (spin_langevin_step_m1 [[⟨0, 0, 1⟩]] [[⟨9, 9, 9⟩]] 0 1 (1, 1)
      0 0 hamlX4 [[⟨0, 0, 0⟩]] sqId rotAdd)
    ∧ Rejected (spin_langevin_step_old [[⟨0, 0, 1⟩]] [[⟨9, 9, 9⟩]] 0 1
      (1, 1) 0 0 hamlX 1 1 [[⟨0, 0, 0⟩]] [[⟨0, 0, 0⟩]]
      SpinLangevinOpts.default sqId rotAdd)
    ∧ ¬ Rejected (spin_langevin_step_m0 [[⟨0, 0, 1⟩]] [[⟨9, 9, 9⟩]] 0 1
      (1, 1) 0 0 hamlX [[⟨0, 0, 0⟩]] 2 sqId rotAdd) :=
  ⟨(stability_gate_thresholds.2.1 [[⟨0, 0, 1⟩]] [[⟨9, 9, 9⟩]] 0 1 (1, 1) 0 0
      hamlX4 [[⟨0, 0, 0⟩]] sqId rotAdd (by norm_num [raw_dim])
      (by norm_num [raw_dim]) (by norm_num)).mpr
      (by norm_num [m1_gate_metric, specOmegaM1, gzip5, zipWith5,
        h_update_par, h_update_row, sl_add_dissipative, hamlX4, scale_grid,
        scale_row, sqId, avg_field, V3.add, V3.sub, V3.smul, V3.cross,
        V3.dot, MAX_AVG_ANGULAR_FIELD]),
   (stability_gate_thresholds.2.2.1 [[⟨0, 0, 1⟩]] [[⟨9, 9, 9⟩]] 0 1 (1, 1)
      0 0 hamlX 1 1 [[⟨0, 0, 0⟩]] [[⟨0, 0, 0⟩]] SpinLangevinOpts.default
      sqId rotAdd (by norm_num [raw_dim]) (by norm_num [raw_dim])
      (by norm_num) (by norm_num)).mpr
      (by norm_num [old_gate_metric, specOmega12, gzip5, zipWith5,
        h_update_par, h_update_row, sl_add_dissipative, hamlX, scale_grid,
        scale_row, sqId, avg_field, V3.add, V3.sub, V3.smul, V3.cross,
        V3.dot, SpinLangevinOpts.default]),
   fun hr =>
     (by norm_num [m0_gate_metric, specOmega1M0, h_update_par, h_update_row,
        sl_add_dissipative, hamlX, sqId, avg_field, V3.add, V3.sub, V3.smul,
        V3.cross, V3.dot] :
       ¬ m0_gate_metric sqId 0 1 0 hamlX [[⟨0, 0, 1⟩]] ≥ 2)
     ((stability_gate_thresholds.2.2.2 [[⟨0, 0, 1⟩]] [[⟨9, 9, 9⟩]] 0 1
        (1, 1) 0 0 hamlX [[⟨0, 0, 0⟩]] 2 sqId rotAdd (by norm_num [raw_dim])
        (by norm_num [raw_dim]) (by norm_num)).mp hr)⟩

/-- Claim C4 counterexample: on a one-row input whose gate metric reaches
the threshold, the bulk two-stage stepper rejects and leaves the output
buffer `[[⟨9,9,9⟩]]` untouched, while the per-row stepper (which has no
gate) produces a different final row from the identical field evaluations
and noise draws — so the two are not unconditionally equal. -/
theorem row_bulk_equivalence_cex :
    spin_langevin_step_old [[⟨0, 0, 1⟩]] [[⟨9, 9, 9⟩]] 0 1 (1, 1) 0 0 hamlX
        1 1 [[⟨0, 0, 0⟩]] [[⟨0, 0, 0⟩]] ⟨1/5, false⟩ sqId rotAdd
      = .ok (StepResult.Reject 1, [[⟨9, 9, 9⟩]])
    ∧ (spin_langevin_step_row 0 1 0 hamlX [⟨0, 0, 1⟩]
        (scale_row (sqId 0) [⟨0, 0, 0⟩]) (scale_row (sqId 0) [⟨0, 0, 0⟩])
        sqId rotAdd).mf ≠ [⟨9, 9, 9⟩] := by
  constructor
  · rw [spin_langevin_step_old_guards [[⟨0, 0, 1⟩]] [[⟨9, 9, 9⟩]] 0 1 (1, 1)
      0 0 hamlX 1 1 [[⟨0, 0, 0⟩]] [[⟨0, 0, 0⟩]] ⟨1/5, false⟩ sqId rotAdd
      (by norm_num [raw_dim]) (by norm_num [raw_dim]) (by norm_num)
      (by norm_num)]
    rw [old_core_reject [[⟨0, 0, 1⟩]] [[⟨9, 9, 9⟩]] 0 1 0 0 hamlX
      [[⟨0, 0, 0⟩]] [[⟨0, 0, 0⟩]] ⟨1/5, false⟩ sqId rotAdd
      (by norm_num [old_gate_metric, specOmega12, gzip5, zipWith5,
        h_update_par, h_update_row, sl_add_dissipative, hamlX, scale_grid,
        scale_row, sqId, avg_field, V3.add, V3.sub, V3.smul, V3.cross,
        V3.dot])]
    norm_num [old_gate_metric, specOmega12, gzip5, zipWith5, h_update_par,
      h_update_row, sl_add_dissipative, hamlX, scale_grid, scale_row, sqId,
      avg_field, V3.add, V3.sub, V3.smul, V3.cross, V3.dot]
  · norm_num [spin_langevin_step_row, zipWith3, zipWith5, h_update_row,
      sl_add_dissipative, m_update_row, scale_row, hamlX, sqId, rotAdd,
      V3.add, V3.sub, V3.smul, V3.cross, V3.dot]

/-- Claim C4 (amended): the per-row stepper run on a single replica row
produces the same final spin state as the bulk two-stage stepper applied to
the one-row array, given identical field evaluations and identical noise
draws, *provided the bulk stepper's stability gate passes* (and the
short-circuit option is off); when the gate rejects, the bulk stepper
leaves the output buffer untouched while the ungated per-row stepper still
propagates, so the gate-pass proviso is necessary (see the
counterexample). -/
theorem row_bulk_equivalence (r0 mfr x1 x2 : Row) (t0 delta_t : ℚ)
    (workShape : ℕ × ℕ) (eta b : ℚ) (haml_fn : ℚ → Row → Row)
    (poolSize numThreads : ℕ) (opts : SpinLangevinOpts) (sq : ℚ → ℚ)
    (rot : V3 → V3 → V3)
    (hws : raw_dim [r0] = workShape) (hmf : raw_dim [mfr] = raw_dim [r0])
    (hb : b ≥ 0) (hpool : poolSize ≥ numThreads)
    (hs1 : opts.stage1_only = false)
    (hgate : old_gate_metric sq t0 delta_t eta b haml_fn [r0] [x1] [x2]
      < opts.h_max) :
    spin_langevin_step_old [r0] [mfr] t0 delta_t workShape eta b haml_fn
        poolSize numThreads [x1] [x2] opts sq rot
      = .ok (StepResult.Accept
          (avg_field_row sq (spin_langevin_step_row t0 delta_t eta haml_fn
            r0 (scale_row (sq b) x1) (scale_row (sq b) x2) sq rot).omega2),
         [(spin_langevin_step_row t0 delta_t eta haml_fn r0
            (scale_row (sq b) x1) (scale_row (sq b) x2) sq rot).mf]) := by
  rw [spin_langevin_step_old_guards [r0] [mfr] t0 delta_t workShape eta b
    haml_fn poolSize numThreads [x1] [x2] opts sq rot hws hmf hb hpool]
  rw [old_core_accept [r0] [mfr] t0 delta_t eta b haml_fn [x1] [x2] opts sq
    rot hgate hs1]
  rw [scale_grid_singleton (sq b) x1, scale_grid_singleton (sq b) x2]
  rw [specOmega22_singleton sq t0 delta_t eta haml_fn r0
    (scale_row (sq b) x1) (scale_row (sq b) x2) rot]
  rw [avg_field_singleton, m_update_par_singleton]
  rfl

theorem row_bulk_equivalence_witness :
    spin_langevin_step_old [[⟨0, 0, 1⟩]] [[⟨0, 0, 1⟩]] 0 1 (1, 1) 0 0 hamlX
        1 1 [[⟨0, 0, 0⟩]] [[⟨0, 0, 0⟩]] ⟨10, false⟩ sqId rotAdd
      = .ok (StepResult.Accept
          (avg_field_row sqId (spin_langevin_step_row 0 1 0 hamlX [⟨0, 0, 1⟩]
            (scale_row (sqId 0) [⟨0, 0, 0⟩]) (scale_row (sqId 0) [⟨0, 0, 0⟩])
            sqId rotAdd).omega2),
         [(spin_langevin_step_row 0 1 0 hamlX [⟨0, 0, 1⟩]
            (scale_row (sqId 0) [⟨0, 0, 0⟩]) (scale_row (sqId 0) [⟨0, 0, 0⟩])
            sqId rotAdd).mf]) :=
  row_bulk_equivalence [⟨0, 0, 1⟩] [⟨0, 0, 1⟩] [⟨0, 0, 0⟩] [⟨0, 0, 0⟩] 0 1
    (1, 1) 0 0 hamlX 1 1 ⟨10, false⟩ sqId rotAdd (by norm_num [raw_dim])
    (by norm_num) (by norm_num) (by norm_num) (by norm_num)
    (by norm_num [old_gate_metric, specOmega12, gzip5, zipWith5,
      h_update_par, h_update_row, sl_add_dissipative, hamlX, scale_grid,
      scale_row, sqId, avg_field, V3.add, V3.sub, V3.smul, V3.cross,
      V3.dot])

/-- Claim C5: in the short-circuit (`stage1_only`) variant of the two-stage
stepper, once the stability gate on `Ω12` passes, stage 2 is skipped: the
output is `mf = rotate(Ω12, m0)` and the return value is `Accept` carrying
the mean norm of `Ω12` (first conjunct); and the gate is the same one as on
the full two-stage path: with equal `h_max`, the short-circuit call rejects
exactly when the full call rejects (second conjunct). -/
theorem stage1_short_circuit :
    (∀ (m0 mf : Grid) (t0 delta_t : ℚ) (workShape : ℕ × ℕ) (eta b : ℚ)
       (haml_fn : ℚ → Row → Row) (poolSize numThreads : ℕ) (xi1 xi2 : Grid)
       (opts : SpinLangevinOpts) (sq : ℚ → ℚ) (rot : V3 → V3 → V3),
       raw_dim m0 = workShape → raw_dim mf = raw_dim m0 → b ≥ 0 →
       poolSize ≥ numThreads → opts.stage1_only = true →
       old_gate_metric sq t0 delta_t eta b haml_fn m0 xi1 xi2 < opts.h_max →
       spin_langevin_step_old m0 mf t0 delta_t workShape eta b haml_fn
           poolSize numThreads xi1 xi2 opts sq rot
         = .ok (StepResult.Accept
             (old_gate_metric sq t0 delta_t eta b haml_fn m0 xi1 xi2),
            m_update_par rot
              (specOmega12 sq t0 delta_t eta haml_fn m0
                (scale_grid (sq b) xi1) (scale_grid (sq b) xi2)) m0))
    ∧ (∀ (m0 mf : Grid) (t0 delta_t : ℚ) (workShape : ℕ × ℕ) (eta b : ℚ)
       (haml_fn : ℚ → Row → Row) (poolSize numThreads : ℕ) (xi1 xi2 : Grid)
       (h_max : ℚ) (sq : ℚ → ℚ) (rot : V3 → V3 → V3),
       raw_dim m0 = workShape → raw_dim mf = raw_dim m0 → b ≥ 0 →
       poolSize ≥ numThreads →
       (Rejected (spin_langevin_step_old m0 mf t0 delta_t workShape eta b
           haml_fn poolSize numThreads xi1 xi2 ⟨h_max, true⟩ sq rot)
         ↔ Rejected (spin_langevin_step_old m0 mf t0 delta_t workShape eta b
           haml_fn poolSize numThreads xi1 xi2 ⟨h_max, false⟩ sq rot))) := by
  constructor
  · intro m0 mf t0 delta_t workShape eta b haml_fn poolSize numThreads xi1
      xi2 opts sq rot hws hmf hb hpool hs1 hgate
    rw [spin_langevin_step_old_guards m0 mf t0 delta_t workShape eta b
      haml_fn poolSize numThreads xi1 xi2 opts sq rot hws hmf hb hpool]
    rw [old_core_stage1 m0 mf t0 delta_t eta b haml_fn xi1 xi2 opts sq rot
      hgate hs1]
  · intro m0 mf t0 delta_t workShape eta b haml_fn poolSize numThreads xi1
      xi2 h_max sq rot hws hmf hb hpool
    rw [spin_langevin_step_old_guards m0 mf t0 delta_t workShape eta b
      haml_fn poolSize numThreads xi1 xi2 ⟨h_max, true⟩ sq rot hws hmf hb
      hpool]
    rw [spin_langevin_step_old_guards m0 mf t0 delta_t workShape eta b
      haml_fn poolSize numThreads xi1 xi2 ⟨h_max, false⟩ sq rot hws hmf hb
      hpool]
    by_cases hge : old_gate_metric sq t0 delta_t eta b haml_fn m0 xi1 xi2
      ≥ h_max
    · rw [old_core_reject m0 mf t0 delta_t eta b haml_fn xi1 xi2
        ⟨h_max, true⟩ sq rot hge]
      rw [old_core_reject m0 mf t0 delta_t eta b haml_fn xi1 xi2
        ⟨h_max, false⟩ sq rot hge]
    · rw [old_core_stage1 m0 mf t0 delta_t eta b haml_fn xi1 xi2
        ⟨h_max, true⟩ sq rot (not_le.mp hge) rfl]
      rw [old_core_accept m0 mf t0 delta_t eta b haml_fn xi1 xi2
        ⟨h_max, false⟩ sq rot (not_le.mp hge) rfl]
      exact iff_of_false (not_Rejected_ok_accept _ _)
        (not_Rejected_ok_accept _ _)

theorem stage1_short_circuit_witness :
    (spin_langevin_step_old [[⟨0, 0, 1⟩]] [[⟨0, 0, 1⟩]] 0 1 (1, 1) 0 0
        hamlX 1 1 [[⟨0, 0, 0⟩]] [[⟨0, 0, 0⟩]] ⟨10, true⟩ sqId rotAdd
      = .ok (StepResult.Accept
          (old_gate_metric sqId 0 1 0 0 hamlX [[⟨0, 0, 1⟩]] [[⟨0, 0, 0⟩]]
            [[⟨0, 0, 0⟩]]),
         m_update_par rotAdd
           (specOmega12 sqId 0 1 0 hamlX [[⟨0, 0, 1⟩]]
             (scale_grid (sqId 0) [[⟨0, 0, 0⟩]])
             (scale_grid (sqId 0) [[⟨0, 0, 0⟩]])) [[⟨0, 0, 1⟩]]))
    ∧ (Rejected (spin_langevin_step_old [[⟨0, 0, 1⟩]] [[⟨0, 0, 1⟩]] 0 1
        (1, 1) 0 0 hamlX 1 1 [[⟨0, 0, 0⟩]] [[⟨0, 0, 0⟩]] ⟨1/5, true⟩ sqId
        rotAdd)
      ↔ Rejected (spin_langevin_step_old [[⟨0, 0, 1⟩]] [[⟨0, 0, 1⟩]] 0 1
        (1, 1) 0 0 hamlX 1 1 [[⟨0, 0, 0⟩]] [[⟨0, 0, 0⟩]] ⟨1/5, false⟩ sqId
        rotAdd)) :=
  ⟨stage1_short_circuit.1 [[⟨0, 0, 1⟩]] [[⟨0, 0, 1⟩]] 0 1 (1, 1) 0 0 hamlX
      1 1 [[⟨0, 0, 0⟩]] [[⟨0, 0, 0⟩]] ⟨10, true⟩ sqId rotAdd
      (by norm_num [raw_dim]) (by norm_num) (by norm_num) (by norm_num) rfl
      (by norm_num [old_gate_metric, specOmega12, gzip5, zipWith5,
        h_update_par, h_update_row, sl_add_dissipative, hamlX, scale_grid,
        scale_row, sqId, avg_field, V3.add, V3.sub, V3.smul, V3.cross,
        V3.dot]),
   stage1_short_circuit.2 [[⟨0, 0, 1⟩]] [[⟨0, 0, 1⟩]] 0 1 (1, 1) 0 0 hamlX
      1 1 [[⟨0, 0, 0⟩]] [[⟨0, 0, 0⟩]] (1/5) sqId rotAdd
      (by norm_num [raw_dim]) (by norm_num) (by norm_num) (by norm_num)⟩

/-- Claim C6: the single-field-evaluation cheap stepper evaluates the field
exactly once, at the midpoint `t0+Δt/2` on the `t0` spins with the
dissipative correction (this is `specOmega1M0`, whose only field evaluation
is at the midpoint); builds the purely deterministic generator
`Ω1 = H1·Δt`; rejects, leaving `mf` unwritten, when the mean norm of `Ω1`
reaches `h_max`; otherwise rotates to `m1 = rotate(Ω1, m0)`, builds the
purely stochastic generator `χ1·√b·√Δt` from one draw per cell, produces
`mf` by rotating `m1` by it, and returns `Accept` with the mean norm of
`Ω1`. -/
theorem cheap_stepper_spec (m0 mf : Grid) (t0 delta_t : ℚ)
    (workShape : ℕ × ℕ) (eta b : ℚ) (haml_fn : ℚ → Row → Row) (xi : Grid)
    (h_max : ℚ) (sq : ℚ → ℚ) (rot : V3 → V3 → V3)
    (hws : raw_dim m0 = workShape) (hmf : raw_dim mf = raw_dim m0)
    (hb : b ≥ 0) :
    spin_langevin_step_m0 m0 mf t0 delta_t workShape eta b haml_fn xi h_max
        sq rot
      = .ok (if m0_gate_metric sq t0 delta_t eta haml_fn m0 ≥ h_max
          then (StepResult.Reject (m0_gate_metric sq t0 delta_t eta haml_fn
            m0), mf)
          else (StepResult.Accept (m0_gate_metric sq t0 delta_t eta haml_fn
            m0),
            m_update_par rot (scale_grid (sq b * sq delta_t) xi)
              (m_update_par rot (specOmega1M0 t0 delta_t eta haml_fn m0)
                m0))) := by
  rw [spin_langevin_step_m0_guards m0 mf t0 delta_t workShape eta b haml_fn
    xi h_max sq rot hws hmf hb]
  by_cases hg : m0_gate_metric sq t0 delta_t eta haml_fn m0 ≥ h_max
  · rw [if_pos hg, m0_core_reject m0 mf t0 delta_t eta b haml_fn xi h_max
      sq rot hg]
  · rw [if_neg hg, m0_core_accept m0 mf t0 delta_t eta b haml_fn xi h_max
      sq rot (not_le.mp hg)]
    have hsc : xi.map (fun row =>
        row.map (fun v => (v.smul (sq b)).smul (sq delta_t)))
        = scale_grid (sq b * sq delta_t) xi := by
      simp [scale_grid, scale_row, V3.smul, mul_assoc]
    rw [hsc]

theorem cheap_stepper_spec_witness :
    spin_langevin_step_m0 [[⟨0, 0, 1⟩]] [[⟨0, 0, 1⟩]] 0 1 (1, 1) 0 0 hamlX
        [[⟨0, 0, 0⟩]] 2 sqId rotAdd
      = .ok (if m0_gate_metric sqId 0 1 0 hamlX [[⟨0, 0, 1⟩]] ≥ 2
          then (StepResult.Reject (m0_gate_metric sqId 0 1 0 hamlX
            [[⟨0, 0, 1⟩]]), [[⟨0, 0, 1⟩]])
          else (StepResult.Accept (m0_gate_metric sqId 0 1 0 hamlX
            [[⟨0, 0, 1⟩]]),
            m_update_par rotAdd (scale_grid (sqId 0 * sqId 1) [[⟨0, 0, 0⟩]])
              (m_update_par rotAdd (specOmega1M0 0 1 0 hamlX [[⟨0, 0, 1⟩]])
                [[⟨0, 0, 1⟩]]))) :=
  cheap_stepper_spec [[⟨0, 0, 1⟩]] [[⟨0, 0, 1⟩]] 0 1 (1, 1) 0 0 hamlX
    [[⟨0, 0, 0⟩]] 2 sqId rotAdd (by norm_num [raw_dim]) (by norm_num)
    (by norm_num)


/-- Claim C8: every stepper entry point aborts the call (panics) when a
fatal precondition is violated — a negative noise strength `b`, a shape
mismatch between the input spins, output spins and workpad arrays, or (for
the entry points that take an RNG pool) a pool with fewer generators than
the active worker threads — rather than silently coercing and
proceeding. -/
theorem fatal_preconditions_abort :
    (∀ (m0 mf : Grid) (t0 delta_t : ℚ) (workShape : ℕ × ℕ) (eta b : ℚ)
       (haml_fn : ℚ → Row → Row) (xi : Grid) (h_max : ℚ) (sq : ℚ → ℚ)
       (rot : V3 → V3 → V3),
       (b < 0 ∨ raw_dim m0 ≠ workShape ∨ raw_dim mf ≠ raw_dim m0) →
       isPanic (spin_langevin_step_m0 m0 mf t0 delta_t workShape eta b
         haml_fn xi h_max sq rot) = true)
    ∧ (∀ (m0 mf : Grid) (t0 delta_t : ℚ) (workShape : ℕ × ℕ) (eta b : ℚ)
       (haml_fn : ℚ → Row → Row) (xi1 : Grid) (sq : ℚ → ℚ)
       (rot : V3 → V3 → V3),
       (b < 0 ∨ raw_dim m0 ≠ workShape ∨ raw_dim mf ≠ raw_dim m0) →
       isPanic (spin_langevin_step_m1 m0 mf t0 delta_t workShape eta b
         haml_fn xi1 sq rot) = true)
    ∧ (∀ (spins_t0 spins_tf : Grid) (t0 delta_t eta b : ℚ)
       (haml_fn : ℚ → Row → Row) (poolSize numThreads : ℕ) (xi1 xi2 : Grid)
       (sq : ℚ → ℚ) (rot : V3 → V3 → V3),
       (b < 0 ∨ raw_dim spins_tf ≠ raw_dim spins_t0
         ∨ poolSize < numThreads) →
       isPanic (spin_langevin_step spins_t0 spins_tf t0 delta_t eta b
         haml_fn poolSize numThreads xi1 xi2 sq rot) = true)
    ∧ (∀ (m0 mf : Grid) (t0 delta_t : ℚ) (workShape : ℕ × ℕ) (eta b : ℚ)
       (haml_fn : ℚ → Row → Row) (poolSize numThreads : ℕ) (xi1 xi2 : Grid)
       (opts : SpinLangevinOpts) (sq : ℚ → ℚ) (rot : V3 → V3 → V3),
       (b < 0 ∨ raw_dim m0 ≠ workShape ∨ raw_dim mf ≠ raw_dim m0
         ∨ poolSize < numThreads) →
       isPanic (spin_langevin_step_old m0 mf t0 delta_t workShape eta b
         haml_fn poolSize numThreads xi1 xi2 opts sq rot) = true) := by
  refine ⟨?_, ?_, ?_, ?_⟩
  · intro m0 mf t0 delta_t workShape eta b haml_fn xi h_max sq rot h
    simp only [spin_langevin_step_m0]
    split
    · rfl
    · next h1 =>
      split
      · rfl
      · next h2 =>
        split
        · rfl
        · next h3 =>
          rcases h with hb | hs | hs
          · exact absurd (not_not.mp h3) (not_le.mpr hb)
          · exact absurd hs h1
          · exact absurd hs h2
  · intro m0 mf t0 delta_t workShape eta b haml_fn xi1 sq rot h
    simp only [spin_langevin_step_m1]
    split
    · rfl
    · next h1 =>
      split
      · rfl
      · next h2 =>
        split
        · rfl
        · next h3 =>
          rcases h with hb | hs | hs
          · exact absurd (not_not.mp h3) (not_le.mpr hb)
          · exact absurd hs h1
          · exact absurd hs h2
  · intro spins_t0 spins_tf t0 delta_t eta b haml_fn poolSize numThreads
      xi1 xi2 sq rot h
    simp only [spin_langevin_step]
    split
    · rfl
    · next h1 =>
      split
      · rfl
      · next h2 =>
        split
        · rfl
        · next h3 =>
          rcases h with hb | hs | hp
          · exact absurd (not_not.mp h2) (not_le.mpr hb)
          · exact absurd hs h1
          · exact absurd (not_not.mp h3) (not_le.mpr hp)
  · intro m0 mf t0 delta_t workShape eta b haml_fn poolSize numThreads xi1
      xi2 opts sq rot h
    simp only [spin_langevin_step_old]
    split
    · rfl
    · next h1 =>
      split
      · rfl
      · next h2 =>
        split
        · rfl
        · next h3 =>
          split
          · rfl
          · next h4 =>
            rcases h with hb | hs | hs | hp
            · exact absurd (not_not.mp h3) (not_le.mpr hb)
            · exact absurd hs h1
            · exact absurd hs h2
            · exact absurd (not_not.mp h4) (not_le.mpr hp)

theorem fatal_preconditions_abort_witness :
    isPanic (spin_langevin_step_m0 [[⟨0, 0, 1⟩]] [[⟨0, 0, 1⟩]] 0 1 (1, 1) 0
        (-1) hamlX [[⟨0, 0, 0⟩]] 2 sqId rotAdd) = true
    ∧ isPanic (spin_langevin_step_m1 [[⟨0, 0, 1⟩]] [[⟨0, 0, 1⟩], [⟨0, 0, 1⟩]]
        0 1 (1, 1) 0 0 hamlX [[⟨0, 0, 0⟩]] sqId rotAdd) = true
    ∧ isPanic (spin_langevin_step [[⟨0, 0, 1⟩]] [[⟨0, 0, 1⟩]] 0 1 0 0 hamlX
        0 1 [[⟨0, 0, 0⟩]] [[⟨0, 0, 0⟩]] sqId rotAdd) = true
    ∧ isPanic (spin_langevin_step_old [[⟨0, 0, 1⟩]] [[⟨0, 0, 1⟩]] 0 1 (2, 1)
        0 0 hamlX 1 1 [[⟨0, 0, 0⟩]] [[⟨0, 0, 0⟩]] SpinLangevinOpts.default
        sqId rotAdd) = true :=
  ⟨fatal_preconditions_abort.1 [[⟨0, 0, 1⟩]] [[⟨0, 0, 1⟩]] 0 1 (1, 1) 0
      (-1) hamlX [[⟨0, 0, 0⟩]] 2 sqId rotAdd (Or.inl (by norm_num)),
   fatal_preconditions_abort.2.1 [[⟨0, 0, 1⟩]] [[⟨0, 0, 1⟩], [⟨0, 0, 1⟩]] 0
      1 (1, 1) 0 0 hamlX [[⟨0, 0, 0⟩]] sqId rotAdd
      (Or.inr (Or.inr (by norm_num [raw_dim]))),
   fatal_preconditions_abort.2.2.1 [[⟨0, 0, 1⟩]] [[⟨0, 0, 1⟩]] 0 1 0 0
      hamlX 0 1 [[⟨0, 0, 0⟩]] [[⟨0, 0, 0⟩]] sqId rotAdd
      (Or.inr (Or.inr (by norm_num))),
   fatal_preconditions_abort.2.2.2 [[⟨0, 0, 1⟩]] [[⟨0, 0, 1⟩]] 0 1 (2, 1) 0
      0 hamlX 1 1 [[⟨0, 0, 0⟩]] [[⟨0, 0, 0⟩]] SpinLangevinOpts.default sqId
      rotAdd (Or.inr (Or.inl (by decide)))⟩

theorem zipWith3_length (f : α → β → γ → δ) (a : List α) (b : List β)
    (c : List γ) :
    (zipWith3 f a b c).length = min a.length (min b.length c.length) := by
  induction a generalizing b c with
  | nil => cases b <;> cases c <;> simp [zipWith3]
  | cons x xs ih =>
    cases b with
    | nil => simp [zipWith3]
    | cons y ys =>
      cases c with
      | nil => simp [zipWith3]
      | cons z zs =>
        simp only [zipWith3, List.length_cons, ih]
        omega

theorem zipWith3_getD (f : α → β → γ → δ) (a : List α) (b : List β)
    (c : List γ) (i : ℕ) (da : α) (db : β) (dc : γ) (dd : δ)
    (hi : i < a.length) (hb : b.length = a.length)
    (hc : c.length = a.length) :
    (zipWith3 f a b c).getD i dd
      = f (a.getD i da) (b.getD i db) (c.getD i dc) := by
  induction a generalizing b c i with
  | nil => simp at hi
  | cons x xs ih =>
    cases b with
    | nil => simp at hb
    | cons y ys =>
      cases c with
      | nil => simp at hc
      | cons z zs =>
        cases i with
        | zero => simp [zipWith3]
        | succ n =>
          simp only [zipWith3, List.getD_cons_succ]
          exact ih ys zs n (by simpa using hi) (by simpa using hb)
            (by simpa using hc)

/-- Claim C9: the parallel replica scheduler `spin_langevin_step` has no
stability gate and no `Reject` outcome: whenever its preconditions hold it
returns `.ok`, overwriting every row of `spins_tf` with the final state
produced by the ungated per-row two-stage stepper, and its plain scalar
return value is the sum over rows of the per-row mean norm of the stage-2
generator `Ω22` (the `omega2` post-condition of `spin_langevin_step_row`)
divided by the number of rows. -/
theorem scheduler_no_gate (spins_t0 spins_tf : Grid) (t0 delta_t eta b : ℚ)
    (haml_fn : ℚ → Row → Row) (poolSize numThreads : ℕ) (xi1 xi2 : Grid)
    (sq : ℚ → ℚ) (rot : V3 → V3 → V3)
    (htf : raw_dim spins_tf = raw_dim spins_t0) (hb : b ≥ 0)
    (hpool : poolSize ≥ numThreads)
    (hx1 : xi1.length = spins_t0.length)
    (hx2 : xi2.length = spins_t0.length) :
    ∃ outs : List (Row × ℚ),
      spin_langevin_step spins_t0 spins_tf t0 delta_t eta b haml_fn poolSize
          numThreads xi1 xi2 sq rot
        = .ok (outs.map Prod.fst,
            (outs.map Prod.snd).sum / (((raw_dim spins_tf).1 : ℚ)))
      ∧ outs.length = spins_t0.length
      ∧ ∀ i, i < spins_t0.length →
          outs.getD i ([], 0)
            = ((spin_langevin_step_row t0 delta_t eta haml_fn
                (spins_t0.getD i []) (scale_row (sq b) (xi1.getD i []))
                (scale_row (sq b) (xi2.getD i [])) sq rot).mf,
               avg_field_row sq (spin_langevin_step_row t0 delta_t eta
                haml_fn (spins_t0.getD i [])
                (scale_row (sq b) (xi1.getD i []))
                (scale_row (sq b) (xi2.getD i [])) sq rot).omega2) := by
  refine ⟨zipWith3 (fun m0_row x1 x2 =>
      ((spin_langevin_step_row t0 delta_t eta haml_fn m0_row
          (scale_row (sq b) x1) (scale_row (sq b) x2) sq rot).mf,
       avg_field_row sq (spin_langevin_step_row t0 delta_t eta haml_fn
          m0_row (scale_row (sq b) x1) (scale_row (sq b) x2) sq
          rot).omega2))
      spins_t0 xi1 xi2, ?_, ?_, ?_⟩
  · rw [spin_langevin_step_guards spins_t0 spins_tf t0 delta_t eta b haml_fn
      poolSize numThreads xi1 xi2 sq rot htf hb hpool]
    rfl
  · rw [zipWith3_length]
    omega
  · intro i hi
    rw [zipWith3_getD _ spins_t0 xi1 xi2 i [] [] [] ([], 0) hi hx1 hx2]

theorem scheduler_no_gate_witness :
    ∃ outs : List (Row × ℚ),
      spin_langevin_step [[⟨0, 0, 1⟩]] [[⟨0, 0, 1⟩]] 0 1 0 0 hamlX4 1 1
          [[⟨0, 0, 0⟩]] [[⟨0, 0, 0⟩]] sqId rotAdd
        = .ok (outs.map Prod.fst,
            (outs.map Prod.snd).sum
              / (((raw_dim [[(⟨0, 0, 1⟩ : V3)]]).1 : ℚ)))
      ∧ outs.length = [[(⟨0, 0, 1⟩ : V3)]].length
      ∧ ∀ i, i < [[(⟨0, 0, 1⟩ : V3)]].length →
          outs.getD i ([], 0)
            = ((spin_langevin_step_row 0 1 0 hamlX4
                ([[(⟨0, 0, 1⟩ : V3)]].getD i [])
                (scale_row (sqId 0) ([[(⟨0, 0, 0⟩ : V3)]].getD i []))
                (scale_row (sqId 0) ([[(⟨0, 0, 0⟩ : V3)]].getD i [])) sqId
                rotAdd).mf,
               avg_field_row sqId (spin_langevin_step_row 0 1 0 hamlX4
                ([[(⟨0, 0, 1⟩ : V3)]].getD i [])
                (scale_row (sqId 0) ([[(⟨0, 0, 0⟩ : V3)]].getD i []))
                (scale_row (sqId 0) ([[(⟨0, 0, 0⟩ : V3)]].getD i [])) sqId
                rotAdd).omega2) :=
  scheduler_no_gate [[⟨0, 0, 1⟩]] [[⟨0, 0, 1⟩]] 0 1 0 0 hamlX4 1 1
    [[⟨0, 0, 0⟩]] [[⟨0, 0, 0⟩]] sqId rotAdd (by norm_num) (by norm_num)
    (by norm_num) (by norm_num) (by norm_num)

theorem xyz_write_length (arr : Mat2) (chs : List Chunk) :
    ∀ c : ℕ, (xyz_write arr c chs).length = chs.length := by
  induction chs with
  | nil => intro c; rfl
  | cons ch rest ih =>
    intro c
    simp only [xyz_write, List.length_cons, ih]

theorem xyz_write_getD (arr : Mat2) (chs : List Chunk) :
    ∀ (c i : ℕ) (d : Chunk), i < chs.length →
      (xyz_write arr c chs).getD i d
        = write_chunk arr (c + i) (chs.getD i d) := by
  induction chs with
  | nil => intro c i d hi; simp at hi
  | cons ch rest ih =>
    intro c i d hi
    cases i with
    | zero => simp [xyz_write]
    | succ n =>
      simp only [xyz_write, List.getD_cons_succ]
      rw [ih (c + 1) n d (by simpa using hi)]
      ring_nf

theorem n_chunks_eq (n : ℕ) (h1 : 1 ≤ n) (h2 : n < 2 ^ 64) :
    n_chunks n = (n + 3) / 4 := by
  have e : (2 : ℕ) ^ 64 = 18446744073709551616 := by norm_num
  unfold n_chunks
  rw [e]
  rw [e] at h2
  omega

/-- Claim C7 counterexample: for the empty (0-row) 3-column matrix with an
empty chunk array — which satisfies both preconditions of the claim, since
`ceil(0/4) = 0` chunks are expected — the call nevertheless panics: the
`usize` computation `(n-1)/4 + 1` wraps around at `n = 0` and the chunk
count check fails. -/
theorem xyz_to_array_chunks_cex :
    xyz_to_array_chunks ⟨0, 3, []⟩ []
      = .error "xyz_to_array_chunks: mismatching chunk size"
    ∧ ([] : List Chunk).length = (0 + 3) / 4 := by
  constructor
  · unfold xyz_to_array_chunks
    rw [if_neg (by norm_num)]
    rw [if_pos (by norm_num [n_chunks])]
  · rfl

/-- Claim C7 (amended): for a nonempty N×3 input matrix (N ≥ 1; the N = 0
call panics on the wrapped chunk-count computation even when the chunk
array is empty as expected — see the counterexample), the lane layout
adaptor packs entry `(4c+l, k)` of the input into component `k` of lane `l`
of chunk `c` for every `4c+l < N`; a wrong column count, or a chunk-array
length different from `ceil(N/4)`, makes the call fail with a fatal panic
rather than a recoverable error. -/
theorem xyz_to_array_chunks_spec :
    (∀ (arr : Mat2) (chunk_array : List Chunk), arr.ncols ≠ 3 →
        xyz_to_array_chunks arr chunk_array
          = .error "xyz_to_array_chunks: 3 spatial dimensions required.")
    ∧ (∀ (arr : Mat2) (chunk_array : List Chunk), arr.ncols = 3 →
        1 ≤ arr.nrows → arr.nrows < 2 ^ 64 →
        chunk_array.length ≠ (arr.nrows + 3) / 4 →
        xyz_to_array_chunks arr chunk_array
          = .error "xyz_to_array_chunks: mismatching chunk size")
    ∧ (∀ (arr : Mat2) (chunk_array : List Chunk), arr.ncols = 3 →
        1 ≤ arr.nrows → arr.nrows < 2 ^ 64 →
        chunk_array.length = (arr.nrows + 3) / 4 →
        ∃ out, xyz_to_array_chunks arr chunk_array = .ok out
          ∧ out.length = chunk_array.length
          ∧ ∀ (c l : ℕ) (hl : l < 4) (k : Fin 3), 4 * c + l < arr.nrows →
              c < out.length →
              out.getD c (fun _ _ => 0) k ⟨l, hl⟩
                = arr.entry (4 * c + l) (k : ℕ)) := by
  refine ⟨?_, ?_, ?_⟩
  · intro arr chunk_array hc
    unfold xyz_to_array_chunks
    rw [if_pos hc]
  · intro arr chunk_array hc h1 h2 hne
    unfold xyz_to_array_chunks
    rw [if_neg (by simp [hc])]
    rw [if_pos (by rw [n_chunks_eq arr.nrows h1 h2]; exact hne)]
  · intro arr chunk_array hc h1 h2 hlen
    refine ⟨xyz_write arr 0 chunk_array, ?_, xyz_write_length arr
      chunk_array 0, ?_⟩
    · unfold xyz_to_array_chunks
      rw [if_neg (by simp [hc])]
      rw [if_neg (by rw [n_chunks_eq arr.nrows h1 h2]; simp [hlen])]
    · intro c l hl k hrow hcout
      rw [xyz_write_length arr chunk_array 0] at hcout
      rw [xyz_write_getD arr chunk_array 0 c (fun _ _ => 0) hcout]
      simp only [write_chunk, Nat.zero_add]
      rw [if_pos (by simpa using hrow)]

theorem xyz_to_array_chunks_spec_witness :
    ∃ out, xyz_to_array_chunks ⟨2, 3, [[1, 2, 3], [4, 5, 6]]⟩
        [chunk7] = .ok out
      ∧ out.length = [chunk7].length
      ∧ ∀ (c l : ℕ) (hl : l < 4) (k : Fin 3),
          4 * c + l < (Mat2.mk 2 3 [[1, 2, 3], [4, 5, 6]]).nrows →
          c < out.length →
          out.getD c (fun _ _ => 0) k ⟨l, hl⟩
            = (Mat2.mk 2 3 [[1, 2, 3], [4, 5, 6]]).entry (4 * c + l)
                (k : ℕ) :=
  xyz_to_array_chunks_spec.2.2 ⟨2, 3, [[1, 2, 3], [4, 5, 6]]⟩
    [chunk7] (by norm_num) (by norm_num) (by norm_num) (by norm_num)

/-- Claim C10: when N is not a multiple of 4, the layout adaptor writes
only lanes `0 .. (N mod 4) - 1` of the final chunk; the remaining lanes of
that chunk keep exactly the values the chunk array held before the call (no
zero-padding or clearing), and every other cell — every lane `l` of every
chunk `c` with `4c+l < N` — is overwritten with the corresponding matrix
entry. -/
theorem xyz_partial_chunk_frame (arr : Mat2) (chunk_array : List Chunk)
    (hcols : arr.ncols = 3) (hmod : arr.nrows % 4 ≠ 0)
    (hlt : arr.nrows < 2 ^ 64)
    (hlen : chunk_array.length = (arr.nrows + 3) / 4) :
    ∃ out, xyz_to_array_chunks arr chunk_array = .ok out
      ∧ out.length = chunk_array.length
      ∧ (∀ (k : Fin 3) (l : Fin 4), arr.nrows % 4 ≤ (l : ℕ) →
          out.getD (chunk_array.length - 1) (fun _ _ => 0) k l
            = (chunk_array.getD (chunk_array.length - 1)
                (fun _ _ => 0)) k l)
      ∧ (∀ (c : ℕ) (k : Fin 3) (l : Fin 4), 4 * c + (l : ℕ) < arr.nrows →
          c < chunk_array.length →
          out.getD c (fun _ _ => 0) k l
            = arr.entry (4 * c + (l : ℕ)) (k : ℕ)) := by
  have h1 : 1 ≤ arr.nrows := by omega
  refine ⟨xyz_write arr 0 chunk_array, ?_, xyz_write_length arr chunk_array
    0, ?_, ?_⟩
  · unfold xyz_to_array_chunks
    rw [if_neg (by simp [hcols])]
    rw [if_neg (by rw [n_chunks_eq arr.nrows h1 hlt]; simp [hlen])]
  · intro k l hmle
    have hlast : chunk_array.length - 1 < chunk_array.length := by omega
    rw [xyz_write_getD arr chunk_array 0 (chunk_array.length - 1)
      (fun _ _ => 0) hlast]
    simp only [write_chunk, Nat.zero_add]
    rw [if_neg (by have h4 := l.isLt; omega)]
  · intro c k l hrow hcl
    rw [xyz_write_getD arr chunk_array 0 c (fun _ _ => 0) hcl]
    simp only [write_chunk, Nat.zero_add]
    rw [if_pos hrow]

theorem xyz_partial_chunk_frame_witness :
    ∃ out, xyz_to_array_chunks ⟨5, 3, [[1, 2, 3], [4, 5, 6], [7, 8, 9],
        [10, 11, 12], [13, 14, 15]]⟩ [chunk7, chunk8] = .ok out
      ∧ out.length = [chunk7, chunk8].length
      ∧ (∀ (k : Fin 3) (l : Fin 4),
          (Mat2.mk 5 3 [[1, 2, 3], [4, 5, 6], [7, 8, 9], [10, 11, 12],
            [13, 14, 15]]).nrows % 4 ≤ (l : ℕ) →
          out.getD ([chunk7, chunk8].length - 1)
              (fun _ _ => 0) k l
            = ([chunk7, chunk8].getD
                ([chunk7, chunk8].length - 1)
                (fun _ _ => 0)) k l)
      ∧ (∀ (c : ℕ) (k : Fin 3) (l : Fin 4),
          4 * c + (l : ℕ) < (Mat2.mk 5 3 [[1, 2, 3], [4, 5, 6], [7, 8, 9],
            [10, 11, 12], [13, 14, 15]]).nrows →
          c < [chunk7, chunk8].length →
          out.getD c (fun _ _ => 0) k l
            = (Mat2.mk 5 3 [[1, 2, 3], [4, 5, 6], [7, 8, 9], [10, 11, 12],
                [13, 14, 15]]).entry (4 * c + (l : ℕ)) (k : ℕ)) :=
  xyz_partial_chunk_frame ⟨5, 3, [[1, 2, 3], [4, 5, 6], [7, 8, 9],
      [10, 11, 12], [13, 14, 15]]⟩ [chunk7, chunk8]
    (by norm_num) (by norm_num) (by norm_num) (by norm_num)
